import Mathlib

/-!
Shallow embedding of the particle-field generation and morphing engine
(`src/components/ParticleField.jsx`, `src/utils/curves.js`, `src/utils/molecules.js`,
`src/utils/galaxy.js`, `src/utils/artifacts.js`, `src/utils/text3d.js`).

Conventions of the embedding:
* JavaScript numbers are modelled as exact rationals (`ℚ`).  All arithmetic the
  claims evaluate is exact in double precision at the inputs used (budget
  splits such as `30000 * 0.7` round to the same integers), so the rational
  model agrees with the source on every quantity a theorem below computes.
* Transcendental library functions (`Math.cos`, `Math.sqrt`, quaternion
  rotation, `THREE.Color().setHSL`, ...) are fields of a `JsMath` parameter:
  they are uninterpreted, so every theorem quantifying over `JsMath` holds for
  the actual implementations.
* `Math.random()` is modelled as an explicit stream `ℕ → ℚ` of draws.
* Mutable per-frame buffers become a `FieldState` record of index-functions,
  updated functionally exactly as the `useFrame` / `useEffect` loops do.
* IEEE special values matter only for the unguarded division in
  `normalizePoints`; a dedicated `JsNum` type models that one computation with
  JavaScript division/multiplication semantics.
-/

namespace Particles

/-- `Math.floor` applied to a nonnegative JS number, landing in `ℕ`
(the source only floors nonnegative point budgets and indices). -/
def floorN (q : ℚ) : ℕ := (⌊q⌋).toNat

/-- A `THREE.Vector3` with exact rational coordinates. -/
structure Vec3 where
  x : ℚ
  y : ℚ
  z : ℚ
deriving DecidableEq, Repr

/-- `a.add(b)` of `THREE.Vector3`. -/
def Vec3.add (a b : Vec3) : Vec3 := ⟨a.x + b.x, a.y + b.y, a.z + b.z⟩

/-- `a.sub(b)` of `THREE.Vector3`. -/
def Vec3.sub (a b : Vec3) : Vec3 := ⟨a.x - b.x, a.y - b.y, a.z - b.z⟩

instance : Add Vec3 := ⟨Vec3.add⟩
instance : Sub Vec3 := ⟨Vec3.sub⟩

lemma Vec3.add_def (a b : Vec3) : a + b = ⟨a.x + b.x, a.y + b.y, a.z + b.z⟩ := rfl

lemma Vec3.sub_def (a b : Vec3) : a - b = ⟨a.x - b.x, a.y - b.y, a.z - b.z⟩ := rfl

/-- `v.multiplyScalar k` of `THREE.Vector3`. -/
def Vec3.smul (k : ℚ) (v : Vec3) : Vec3 := ⟨k * v.x, k * v.y, k * v.z⟩

def Vec3.zero : Vec3 := ⟨0, 0, 0⟩

/-- `a.cross(b)` of `THREE.Vector3`. -/
def Vec3.cross (a b : Vec3) : Vec3 :=
  ⟨a.y * b.z - a.z * b.y, a.z * b.x - a.x * b.z, a.x * b.y - a.y * b.x⟩

/-- A `THREE.Color` with exact rational channels. -/
structure Color where
  r : ℚ
  g : ℚ
  b : ℚ
deriving DecidableEq, Repr

/-- `c1.lerp(c2, t)` of `THREE.Color`: each channel moves by `(other - this) * t`. -/
def Color.lerp (c1 c2 : Color) (t : ℚ) : Color :=
  ⟨c1.r + (c2.r - c1.r) * t, c1.g + (c2.g - c1.g) * t, c1.b + (c2.b - c1.b) * t⟩

/-- The transcendental / library operations the generators call.  They are kept
abstract: every universally quantified theorem below holds for any
interpretation, in particular for the real `Math` / `THREE` implementations. -/
structure JsMath where
  cos : ℚ → ℚ
  sin : ℚ → ℚ
  acos : ℚ → ℚ
  sqrt : ℚ → ℚ
  cbrt : ℚ → ℚ
  exp : ℚ → ℚ
  cosh : ℚ → ℚ
  log10 : ℚ → ℚ
  atan2 : ℚ → ℚ → ℚ
  pow : ℚ → ℚ → ℚ
  pi : ℚ
  /-- `v.normalize()` of `THREE.Vector3` (needs `sqrt`). -/
  normalize3 : Vec3 → Vec3
  /-- `v.applyAxisAngle(axis, angle)`: arguments vector, axis, angle. -/
  applyAxisAngle : Vec3 → Vec3 → ℚ → Vec3
  /-- `p.applyQuaternion(q)` with `q = setFromUnitVectors(up, axis)`:
  arguments axis, point (`up` is the constant `(0,1,0)` at the call sites). -/
  rotateFromUpTo : Vec3 → Vec3 → Vec3
  /-- `new THREE.Color().setHSL(h, s, l)`. -/
  setHSL : ℚ → ℚ → ℚ → Color
  /-- `color.offsetHSL(dh, ds, dl)`. -/
  offsetHSL : Color → ℚ → ℚ → ℚ → Color

/-- `v.length()` of `THREE.Vector3`. -/
def vlen (M : JsMath) (v : Vec3) : ℚ := M.sqrt (v.x * v.x + v.y * v.y + v.z * v.z)

/-- The stream of `Math.random()` draws. -/
def RStream : Type := ℕ → ℚ

/-- Skip the first `n` draws of a random stream. -/
def RStream.drop (r : RStream) (n : ℕ) : RStream := fun i => r (n + i)

/-! ## Live Animator (`useFrame` in `ParticleField.jsx`) -/

/-- The four flat buffers of `ParticleField`, viewed per particle index:
live positions, live colors, target positions, target colors. -/
structure FieldState where
  positions : ℕ → Vec3
  colors : ℕ → Color
  targetPositions : ℕ → Vec3
  targetColors : ℕ → Color

/-- The exponential-approach update `live += (target - live) * speed`. -/
def approach (live target speed : ℚ) : ℚ := live + (target - live) * speed

/-- `approach` applied to the three components of a position. -/
def approachV (v t : Vec3) (s : ℚ) : Vec3 :=
  ⟨approach v.x t.x s, approach v.y t.y s, approach v.z t.z s⟩

/-- `approach` applied to the three channels of a color. -/
def approachC (c t : Color) (s : ℚ) : Color :=
  ⟨approach c.r t.r s, approach c.g t.g s, approach c.b t.b s⟩

/-- `speed = 3.0 * delta` computed at the top of the frame callback. -/
def tickSpeed (delta : ℚ) : ℚ := 3 * delta

/-- Body of the per-particle loop in `useFrame`.  In audio mode with a
snapshot, the static target is scaled by `1 + val * 2` and the color channels
are assigned directly; otherwise both position and color move by exponential
approach.  Returns the new (position, color) of particle `i`. -/
def particleUpdate (isAudioMode : Bool) (audioData : Option (List ℕ)) (speed : ℚ)
    (st : FieldState) (i : ℕ) : Vec3 × Color :=
  let tp := st.targetPositions i
  match isAudioMode, audioData with
  | true, some data =>
      let bin := i % data.length
      let val : ℚ := (data.getD bin 0 : ℚ) / 255
      let factor := 1 + val * 2
      (approachV (st.positions i) (Vec3.smul factor tp) speed, ⟨val, 1/2, 1 - val⟩)
  | _, _ =>
      (approachV (st.positions i) tp speed,
       approachC (st.colors i) (st.targetColors i) speed)

/-- One frame of the animator: every particle index below `numParticles` is
updated by `particleUpdate`; the target buffers are read only. -/
def frameTick (numParticles : ℕ) (isAudioMode : Bool) (audioData : Option (List ℕ))
    (speed : ℚ) (st : FieldState) : FieldState :=
  { st with
    positions := fun i =>
      if i < numParticles then (particleUpdate isAudioMode audioData speed st i).1
      else st.positions i
    colors := fun i =>
      if i < numParticles then (particleUpdate isAudioMode audioData speed st i).2
      else st.colors i }

/-- A concrete animator state used to instantiate the animator theorems. -/
def demoState : FieldState :=
  { positions := fun _ => ⟨0, 0, 0⟩
    colors := fun _ => ⟨1, 1, 1⟩
    targetPositions := fun _ => ⟨10, 0, 0⟩
    targetColors := fun _ => ⟨0, 0, 0⟩ }

/-! ## Resampling and normalization (`curves.js`) -/

/-- `resample(points, targetCount)`: nearest-index resampling.  The source
indexes `points[Math.floor((i / targetCount) * points.length)]`; the index is
always in bounds for a non-empty source, so the `getD` default is never used. -/
def resample (points : List Vec3) (targetCount : ℕ) : List Vec3 :=
  if points.isEmpty then []
  else (List.range targetCount).map fun (i : ℕ) =>
    points.getD (floorN (((i : ℚ) / (targetCount : ℚ)) * (points.length : ℚ))) Vec3.zero

/-- Componentwise minimum (`Box3.expandByPoint` on the min corner). -/
def vmin (a b : Vec3) : Vec3 := ⟨min a.x b.x, min a.y b.y, min a.z b.z⟩

/-- Componentwise maximum (`Box3.expandByPoint` on the max corner). -/
def vmax (a b : Vec3) : Vec3 := ⟨max a.x b.x, max a.y b.y, max a.z b.z⟩

/-- Min corner of the axis-aligned bounding box of `p :: ps`. -/
def bboxMin (p : Vec3) (ps : List Vec3) : Vec3 := ps.foldl vmin p

/-- Max corner of the axis-aligned bounding box of `p :: ps`. -/
def bboxMax (p : Vec3) (ps : List Vec3) : Vec3 := ps.foldl vmax p

/-- `box.getCenter` : `(min + max) * 0.5`. -/
def bboxCenter (p : Vec3) (ps : List Vec3) : Vec3 :=
  Vec3.smul (1/2) (bboxMin p ps + bboxMax p ps)

/-- `box.getSize` : `max - min`. -/
def bboxSize (p : Vec3) (ps : List Vec3) : Vec3 := bboxMax p ps - bboxMin p ps

/-- `Math.max(size.x, size.y, size.z)`. -/
def bboxMaxDim (p : Vec3) (ps : List Vec3) : ℚ :=
  max (bboxSize p ps).x (max (bboxSize p ps).y (bboxSize p ps).z)

/-- `normalizePoints(points, scale)` of `curves.js` / `artifacts.js`:
translate the bounding-box center to the origin and scale every coordinate by
`scale / maxDim`.  On the empty list the source's `map` also returns `[]`. -/
def normalizePoints (points : List Vec3) (scale : ℚ) : List Vec3 :=
  match points with
  | [] => []
  | p :: ps =>
    let center := bboxCenter p ps
    let maxDim := bboxMaxDim p ps
    (p :: ps).map fun q => Vec3.smul (scale / maxDim) (q - center)

/-! ## Lorenz attractor (`generateLorenzAttractor` in `curves.js`) -/

/-- One forward-Euler step of the Lorenz system exactly as the source loop
body computes it: derivatives from the current state, then
`x += dx * dt` etc. with `σ = 10`, `ρ = 28`, `β = 8/3`, `dt = 0.01`. -/
def lorenzStep (p : Vec3) : Vec3 :=
  let dx := 10 * (p.y - p.x)
  let dy := p.x * (28 - p.z) - p.y
  let dz := p.x * p.y - (8/3) * p.z
  ⟨p.x + dx * (1/100), p.y + dy * (1/100), p.z + dz * (1/100)⟩

/-- The fixed initial condition `(0.1, 0, 0)`. -/
def lorenzStart : Vec3 := ⟨1/10, 0, 0⟩

/-- The loop of `generateLorenzAttractor`: step, then append the new state. -/
def lorenzOrbit : ℕ → Vec3 → List Vec3
  | 0, _ => []
  | n + 1, p =>
    let p' := lorenzStep p
    p' :: lorenzOrbit n p'

/-- `generateLorenzAttractor(numPoints)`: integrate for exactly `numPoints`
steps from `lorenzStart`, then normalize with target extent 10. -/
def generateLorenzAttractor (numPoints : ℕ) : List Vec3 :=
  normalizePoints (lorenzOrbit numPoints lorenzStart) 10

/-- Modelled from the spec: the right-hand side of the three Lorenz ODEs with
`σ = 10`, `ρ = 28`, `β = 8/3`, used as the reference for the refinement
statement of the integrator. -/
def lorenzRHS (p : Vec3) : Vec3 :=
  ⟨10 * (p.y - p.x), p.x * (28 - p.z) - p.y, p.x * p.y - (8/3) * p.z⟩

/-- Modelled from the spec: the `k`-th forward-Euler iterate
`p ↦ p + dt • F(p)` of the Lorenz ODEs from the fixed initial state. -/
def lorenzEulerIterate : ℕ → Vec3
  | 0 => lorenzStart
  | k + 1 =>
    let p := lorenzEulerIterate k
    p + Vec3.smul (1/100) (lorenzRHS p)

/-- Iterating `lorenzStep` head-first, the shape in which the orbit list
indices are most naturally described. -/
def lorenzIterFrom : ℕ → Vec3 → Vec3
  | 0, p => p
  | k + 1, p => lorenzIterFrom k (lorenzStep p)

lemma lorenzOrbit_length (n : ℕ) : ∀ p, (lorenzOrbit n p).length = n := by
  induction n with
  | zero => intro p; rfl
  | succ n ih => intro p; simpa [lorenzOrbit] using ih (lorenzStep p)

lemma lorenzIterFrom_succ_comm (k : ℕ) :
    ∀ p, lorenzIterFrom (k + 1) p = lorenzStep (lorenzIterFrom k p) := by
  induction k with
  | zero => intro p; rfl
  | succ k ih =>
      intro p
      simpa [lorenzIterFrom] using ih (lorenzStep p)

lemma lorenzStep_eq_euler (p : Vec3) :
    lorenzStep p = p + Vec3.smul (1/100) (lorenzRHS p) := by
  cases p with
  | mk x y z =>
      simp only [lorenzStep, lorenzRHS, Vec3.smul, Vec3.add_def, Vec3.mk.injEq]
      refine ⟨?_, ?_, ?_⟩ <;> ring

lemma lorenzEulerIterate_eq_iterFrom (k : ℕ) :
    lorenzEulerIterate k = lorenzIterFrom k lorenzStart := by
  induction k with
  | zero => rfl
  | succ k ih =>
      rw [lorenzIterFrom_succ_comm, ← ih, lorenzEulerIterate, lorenzStep_eq_euler]

lemma lorenzOrbit_getD (n : ℕ) :
    ∀ p k, k < n →
      (lorenzOrbit n p).getD k Vec3.zero = lorenzIterFrom (k + 1) p := by
  induction n with
  | zero => intro p k hk; omega
  | succ n ih =>
      intro p k hk
      match k with
      | 0 => rfl
      | k + 1 =>
          have hk' : k < n := by omega
          calc (lorenzOrbit (n + 1) p).getD (k + 1) Vec3.zero
              = (lorenzOrbit n (lorenzStep p)).getD k Vec3.zero := rfl
            _ = lorenzIterFrom (k + 1) (lorenzStep p) := ih (lorenzStep p) k hk'
            _ = lorenzIterFrom (k + 2) p := rfl

/-- C7: `generateLorenzAttractor` performs exactly `N` forward-Euler steps of
the Lorenz ODEs (`σ = 10`, `ρ = 28`, `β = 8/3`, step `0.01`) from the fixed
initial state `(0.1, 0, 0)`, appending the state after each step: the orbit
has exactly `N` points, the loop body is the forward-Euler map of `lorenzRHS`,
the `k`-th output point (before normalization) is the `(k+1)`-st Euler
iterate, and the generator normalizes that orbit afterwards. -/
theorem lorenz_euler_integration (N k : ℕ) :
    (lorenzOrbit N lorenzStart).length = N ∧
    (∀ p : Vec3, lorenzStep p = p + Vec3.smul (1/100) (lorenzRHS p)) ∧
    (k < N →
      (lorenzOrbit N lorenzStart).getD k Vec3.zero = lorenzEulerIterate (k + 1)) ∧
    generateLorenzAttractor N = normalizePoints (lorenzOrbit N lorenzStart) 10 := by
  refine ⟨lorenzOrbit_length N lorenzStart, lorenzStep_eq_euler, ?_, rfl⟩
  intro hk
  rw [lorenzOrbit_getD N lorenzStart k hk, lorenzEulerIterate_eq_iterFrom]

/-- Witness for C7 at `N = 3`, `k = 1`. -/
theorem lorenz_euler_integration_witness :
    (lorenzOrbit 3 lorenzStart).getD 1 Vec3.zero = lorenzEulerIterate 2 :=
  (lorenz_euler_integration 3 1).2.2.1 (by decide)

/-! ## Theorems about the Live Animator -/

/-- C1: in every non-audio mode, one animator tick updates each live position
and color component by `live' = live + (target - live) * s` with
`s = 3.0 * frameDeltaTime`; from `live = 0`, `target = 10`, `s = 1/2` one tick
gives 5 and a second gives 15/2; and for every `s` strictly between 0 and 1
the update lands strictly between the old value and the target and never
equals the target when they differ. -/
theorem nonaudio_tick_exponential_approach :
    (∀ (st : FieldState) (audioData : Option (List ℕ)) (delta : ℚ) (n i : ℕ),
      i < n →
      (frameTick n false audioData (tickSpeed delta) st).positions i =
          approachV (st.positions i) (st.targetPositions i) (3 * delta) ∧
      (frameTick n false audioData (tickSpeed delta) st).colors i =
          approachC (st.colors i) (st.targetColors i) (3 * delta)) ∧
    approach 0 10 (1/2) = 5 ∧
    approach (approach 0 10 (1/2)) 10 (1/2) = 15/2 ∧
    (∀ live target s : ℚ, 0 < s → s < 1 → live ≠ target →
      min live target < approach live target s ∧
      approach live target s < max live target ∧
      approach live target s ≠ target) := by
  refine ⟨?_, by norm_num [approach], by norm_num [approach], ?_⟩
  · intro st audioData delta n i hi
    constructor <;> simp [frameTick, particleUpdate, tickSpeed, hi]
  · intro live target s hs0 hs1 hne
    rcases lt_or_gt_of_ne hne with h | h
    · have h1 : live < approach live target s := by unfold approach; nlinarith
      have h2 : approach live target s < target := by unfold approach; nlinarith
      exact ⟨by rwa [min_eq_left h.le], by rwa [max_eq_right h.le], ne_of_lt h2⟩
    · have h1 : approach live target s < live := by unfold approach; nlinarith
      have h2 : target < approach live target s := by unfold approach; nlinarith
      exact ⟨by rwa [min_eq_right h.le], by rwa [max_eq_left h.le], ne_of_gt h2⟩

/-- Witness for C1: a concrete non-audio tick with `delta = 1/6`
(`s = 1/2`) moves the live position `(0,0,0)` with target `(10,0,0)`
to `(5,0,0)`. -/
theorem nonaudio_tick_exponential_approach_witness :
    (frameTick 1 false none (tickSpeed (1/6)) demoState).positions 0 = ⟨5, 0, 0⟩ := by
  have h := (nonaudio_tick_exponential_approach.1 demoState none (1/6) 1 0 (by decide)).1
  rw [h]; norm_num [demoState, approachV, approach]

/-- C2 fails on the code: in audio mode with an available snapshot the live
position is NOT written directly from the audio-scaled target — the loop still
applies the exponential smoothing step to positions.  Concretely, with live
position `(0,0,0)`, static target `(10,0,0)`, snapshot `[255]`
(`val = 1`, `factor = 3`, audio target `(30,0,0)`) and `speed = 1/2`, the tick
produces `(15,0,0)`, not the audio target `(30,0,0)`. -/
theorem audio_tick_positions_not_direct_counterexample :
    (frameTick 1 true (some [255]) (1/2) demoState).positions 0 ≠
      Vec3.smul (1 + ((255 : ℚ) / 255) * 2) (demoState.targetPositions 0) ∧
    (frameTick 1 true (some [255]) (1/2) demoState).positions 0 = ⟨15, 0, 0⟩ ∧
    Vec3.smul (1 + ((255 : ℚ) / 255) * 2) (demoState.targetPositions 0) = ⟨30, 0, 0⟩ := by
  refine ⟨?_, ?_, ?_⟩ <;>
    norm_num [frameTick, particleUpdate, demoState, approachV, approach, Vec3.smul,
      List.getD]

/-- C2 (amended): in audio mode with an available snapshot the animator writes
the live color directly from the audio-derived value
`(val, 0.5, 1 - val)` — independent of the previous color, with no smoothing —
while the live position still undergoes the exponential smoothing step toward
the audio-scaled target `(1 + 2 * val) • target`. -/
theorem audio_tick_direct_colors_smoothed_positions :
    ∀ (st st2 : FieldState) (data : List ℕ) (speed : ℚ) (n i : ℕ), i < n →
      ((frameTick n true (some data) speed st).colors i =
        ⟨(data.getD (i % data.length) 0 : ℚ) / 255, 1/2,
         1 - (data.getD (i % data.length) 0 : ℚ) / 255⟩) ∧
      (st2.positions = st.positions → st2.targetPositions = st.targetPositions →
        (frameTick n true (some data) speed st2).colors i =
          (frameTick n true (some data) speed st).colors i) ∧
      ((frameTick n true (some data) speed st).positions i =
        approachV (st.positions i)
          (Vec3.smul (1 + ((data.getD (i % data.length) 0 : ℚ) / 255) * 2)
            (st.targetPositions i)) speed) := by
  intro st st2 data speed n i hi
  refine ⟨?_, ?_, ?_⟩
  · simp [frameTick, particleUpdate, hi]
  · intro hp ht
    simp [frameTick, particleUpdate, hi]
  · simp [frameTick, particleUpdate, hi]

/-- Witness for C2 (amended): concrete audio tick with snapshot `[255]`. -/
theorem audio_tick_direct_colors_smoothed_positions_witness :
    (frameTick 1 true (some [255]) (1/2) demoState).colors 0 = ⟨1, 1/2, 0⟩ := by
  have h :=
    (audio_tick_direct_colors_smoothed_positions demoState demoState [255] (1/2) 1 0
      (by decide)).1
  rw [h]; norm_num [List.getD]

/-! ## Theorems about resampling -/

/-- C5: for a non-empty source of length `L` and any target count `t`,
`resample` returns exactly `t` points, the `i`-th being
`source[⌊i / t * L⌋]`; the first output equals the first source point, every
index used is at most `L - 1`, and an empty source yields an empty output. -/
theorem resample_nearest_index (src : List Vec3) (t : ℕ) :
    (src ≠ [] →
      (resample src t).length = t ∧
      (∀ i, i < t →
        (resample src t).getD i Vec3.zero =
          src.getD (floorN (((i : ℚ) / (t : ℚ)) * (src.length : ℚ))) Vec3.zero ∧
        floorN (((i : ℚ) / (t : ℚ)) * (src.length : ℚ)) ≤ src.length - 1) ∧
      (0 < t → (resample src t).getD 0 Vec3.zero = src.getD 0 Vec3.zero)) ∧
    resample [] t = [] := by
  constructor
  · intro hne
    have hempty : ¬ (src.isEmpty = true) := by
      simpa [List.isEmpty_iff] using hne
    have hres : resample src t =
        (List.range t).map fun (i : ℕ) =>
          src.getD (floorN (((i : ℚ) / (t : ℚ)) * (src.length : ℚ))) Vec3.zero := by
      rw [resample, if_neg hempty]
    have hlen : 0 < src.length := List.length_pos.mpr hne
    refine ⟨by simp [hres], ?_, ?_⟩
    · intro i hi
      have hget : (resample src t).getD i Vec3.zero =
          src.getD (floorN (((i : ℚ) / (t : ℚ)) * (src.length : ℚ))) Vec3.zero := by
        rw [hres, List.getD_eq_getD_get?, List.get?_map, List.get?_range hi]
        rfl
      refine ⟨hget, ?_⟩
      have ht : 0 < t := lt_of_le_of_lt (Nat.zero_le i) hi
      have hq : ((i : ℚ) / (t : ℚ)) * (src.length : ℚ) < (src.length : ℚ) := by
        have hfrac : (i : ℚ) / (t : ℚ) < 1 := by
          rw [div_lt_one (by positivity)]
          exact_mod_cast hi
        have hL : (0 : ℚ) < (src.length : ℚ) := by exact_mod_cast hlen
        nlinarith
      have hfl : ⌊((i : ℚ) / (t : ℚ)) * (src.length : ℚ)⌋ < (src.length : ℤ) :=
        Int.floor_lt.mpr (by exact_mod_cast hq)
      unfold floorN
      omega
    · intro ht
      have h0 := List.get?_range ht
      rw [hres, List.getD_eq_getD_get?, List.get?_map, h0]
      norm_num [floorN]
  · rfl

/-- Witness for C5 at source `[(1,2,3), (4,5,6)]`, target count 5:
five outputs, the first equal to the first source point. -/
theorem resample_nearest_index_witness :
    (resample [⟨1, 2, 3⟩, ⟨4, 5, 6⟩] 5).length = 5 ∧
    (resample [⟨1, 2, 3⟩, ⟨4, 5, 6⟩] 5).getD 0 Vec3.zero = ⟨1, 2, 3⟩ := by
  have h := (resample_nearest_index [⟨1, 2, 3⟩, ⟨4, 5, 6⟩] 5).1 (List.cons_ne_nil _ _)
  exact ⟨h.1, by rw [h.2.2 (by decide)]; simp [List.getD]⟩

/-! ## Theorems about normalization -/

lemma min_affine (k c a b : ℚ) (hk : 0 ≤ k) :
    min (k * (a - c)) (k * (b - c)) = k * (min a b - c) := by
  rcases le_total a b with h | h
  · rw [min_eq_left h, min_eq_left (mul_le_mul_of_nonneg_left (by linarith) hk)]
  · rw [min_eq_right h, min_eq_right (mul_le_mul_of_nonneg_left (by linarith) hk)]

lemma max_affine (k c a b : ℚ) (hk : 0 ≤ k) :
    max (k * (a - c)) (k * (b - c)) = k * (max a b - c) := by
  rcases le_total a b with h | h
  · rw [max_eq_right h, max_eq_right (mul_le_mul_of_nonneg_left (by linarith) hk)]
  · rw [max_eq_left h, max_eq_left (mul_le_mul_of_nonneg_left (by linarith) hk)]

/-- The affine map `q ↦ k • (q - c)` that `normalizePoints` applies. -/
def affMap (k : ℚ) (c : Vec3) (q : Vec3) : Vec3 := Vec3.smul k (q - c)

lemma vmin_affMap (k : ℚ) (c : Vec3) (hk : 0 ≤ k) (a b : Vec3) :
    vmin (affMap k c a) (affMap k c b) = affMap k c (vmin a b) := by
  cases a with
  | mk ax ay az =>
      cases b with
      | mk bx _ _ =>
          simp only [affMap, vmin, Vec3.smul, Vec3.sub_def, Vec3.mk.injEq]
          exact ⟨min_affine k c.x _ _ hk, min_affine k c.y _ _ hk, min_affine k c.z _ _ hk⟩

lemma vmax_affMap (k : ℚ) (c : Vec3) (hk : 0 ≤ k) (a b : Vec3) :
    vmax (affMap k c a) (affMap k c b) = affMap k c (vmax a b) := by
  cases a with
  | mk ax ay az =>
      cases b with
      | mk bx _ _ =>
          simp only [affMap, vmax, Vec3.smul, Vec3.sub_def, Vec3.mk.injEq]
          exact ⟨max_affine k c.x _ _ hk, max_affine k c.y _ _ hk, max_affine k c.z _ _ hk⟩

lemma bboxMin_map_affMap (k : ℚ) (c : Vec3) (hk : 0 ≤ k) (ps : List Vec3) :
    ∀ p, bboxMin (affMap k c p) (ps.map (affMap k c)) = affMap k c (bboxMin p ps) := by
  induction ps with
  | nil => intro p; rfl
  | cons q qs ih =>
      intro p
      show bboxMin (vmin (affMap k c p) (affMap k c q)) (qs.map (affMap k c)) = _
      rw [vmin_affMap k c hk, ih]
      rfl

lemma bboxMax_map_affMap (k : ℚ) (c : Vec3) (hk : 0 ≤ k) (ps : List Vec3) :
    ∀ p, bboxMax (affMap k c p) (ps.map (affMap k c)) = affMap k c (bboxMax p ps) := by
  induction ps with
  | nil => intro p; rfl
  | cons q qs ih =>
      intro p
      show bboxMax (vmax (affMap k c p) (affMap k c q)) (qs.map (affMap k c)) = _
      rw [vmax_affMap k c hk, ih]
      rfl

lemma max_scale (k a b : ℚ) (hk : 0 ≤ k) : max (k * a) (k * b) = k * max a b := by
  rcases le_total a b with h | h
  · rw [max_eq_right h, max_eq_right (mul_le_mul_of_nonneg_left h hk)]
  · rw [max_eq_left h, max_eq_left (mul_le_mul_of_nonneg_left h hk)]

/-- C6: for a point set whose bounding box has strictly positive longest
dimension, `normalizePoints` translates the bounding-box center to the origin
and multiplies every coordinate by the single scalar
`scale / maxDim`; the output's bounding box has longest dimension exactly
`scale`, center at the origin, and its size vector is the input's size vector
scaled uniformly (no shearing). -/
theorem normalize_centers_and_scales (p : Vec3) (ps : List Vec3) (scale : ℚ)
    (hscale : 0 < scale) (hdim : 0 < bboxMaxDim p ps) :
    0 < scale / bboxMaxDim p ps ∧
    normalizePoints (p :: ps) scale =
      affMap (scale / bboxMaxDim p ps) (bboxCenter p ps) p ::
        ps.map (affMap (scale / bboxMaxDim p ps) (bboxCenter p ps)) ∧
    bboxCenter (affMap (scale / bboxMaxDim p ps) (bboxCenter p ps) p)
        (ps.map (affMap (scale / bboxMaxDim p ps) (bboxCenter p ps))) = Vec3.zero ∧
    bboxMaxDim (affMap (scale / bboxMaxDim p ps) (bboxCenter p ps) p)
        (ps.map (affMap (scale / bboxMaxDim p ps) (bboxCenter p ps))) = scale ∧
    bboxSize (affMap (scale / bboxMaxDim p ps) (bboxCenter p ps) p)
        (ps.map (affMap (scale / bboxMaxDim p ps) (bboxCenter p ps))) =
      Vec3.smul (scale / bboxMaxDim p ps) (bboxSize p ps) := by
  set k := scale / bboxMaxDim p ps with hkdef
  set c := bboxCenter p ps with hcdef
  have hk : 0 < k := div_pos hscale hdim
  have hmin := bboxMin_map_affMap k c hk.le ps p
  have hmax := bboxMax_map_affMap k c hk.le ps p
  refine ⟨hk, ?_, ?_, ?_, ?_⟩
  · simp only [normalizePoints, List.map]
    rfl
  · rw [bboxCenter, hmin, hmax]
    have hcc : c = Vec3.smul (1/2) (bboxMin p ps + bboxMax p ps) := hcdef
    cases hmm : bboxMin p ps with
    | mk mx my mz =>
        cases hMM : bboxMax p ps with
        | mk Mx My Mz =>
            simp only [affMap, Vec3.smul, Vec3.sub_def, Vec3.add_def, Vec3.zero,
              Vec3.mk.injEq, hcc, hmm, hMM]
            refine ⟨?_, ?_, ?_⟩ <;> ring
  · rw [bboxMaxDim, bboxSize, hmin, hmax]
    have hsz : bboxMax p ps - bboxMin p ps = bboxSize p ps := rfl
    cases hmm : bboxMin p ps with
    | mk mx my mz =>
        cases hMM : bboxMax p ps with
        | mk Mx My Mz =>
            have hx : (affMap k c ⟨Mx, My, Mz⟩ - affMap k c ⟨mx, my, mz⟩).x
                = k * (Mx - mx) := by
              simp only [affMap, Vec3.smul, Vec3.sub_def]; ring
            have hy : (affMap k c ⟨Mx, My, Mz⟩ - affMap k c ⟨mx, my, mz⟩).y
                = k * (My - my) := by
              simp only [affMap, Vec3.smul, Vec3.sub_def]; ring
            have hz : (affMap k c ⟨Mx, My, Mz⟩ - affMap k c ⟨mx, my, mz⟩).z
                = k * (Mz - mz) := by
              simp only [affMap, Vec3.smul, Vec3.sub_def]; ring
            rw [hx, hy, hz, max_scale _ _ _ hk.le, max_scale _ _ _ hk.le]
            have hmd : bboxMaxDim p ps = max (Mx - mx) (max (My - my) (Mz - mz)) := by
              rw [bboxMaxDim, bboxSize, hmm, hMM]; rfl
            have hMne : max (Mx - mx) (max (My - my) (Mz - mz)) ≠ 0 := by
              rw [← hmd]; exact ne_of_gt hdim
            rw [hkdef, hmd, div_mul_eq_mul_div, mul_div_assoc, div_self hMne, mul_one]
  · rw [bboxSize, hmin, hmax]
    have hsz2 : bboxSize p ps = bboxMax p ps - bboxMin p ps := rfl
    cases hmm : bboxMin p ps with
    | mk mx my mz =>
        cases hMM : bboxMax p ps with
        | mk Mx My Mz =>
            rw [hsz2, hmm, hMM]
            simp only [affMap, Vec3.smul, Vec3.sub_def, Vec3.mk.injEq]
            refine ⟨?_, ?_, ?_⟩ <;> ring

/-- Witness for C6: normalizing `[(0,0,0), (2,1,0)]` with target extent 10
gives a bounding box of longest dimension 10 centered at the origin. -/
theorem normalize_centers_and_scales_witness :
    bboxMaxDim
        (affMap (10 / bboxMaxDim ⟨0, 0, 0⟩ [⟨2, 1, 0⟩]) (bboxCenter ⟨0, 0, 0⟩ [⟨2, 1, 0⟩]) ⟨0, 0, 0⟩)
        ([⟨2, 1, 0⟩].map
          (affMap (10 / bboxMaxDim ⟨0, 0, 0⟩ [⟨2, 1, 0⟩]) (bboxCenter ⟨0, 0, 0⟩ [⟨2, 1, 0⟩]))) =
      10 := by
  have h := normalize_centers_and_scales ⟨0, 0, 0⟩ [⟨2, 1, 0⟩] 10 (by norm_num)
    (by norm_num [bboxMaxDim, bboxSize, bboxMax, bboxMin, vmax, vmin, Vec3.sub_def])
  exact h.2.2.2.1

/-! ## IEEE special values for the unguarded division (C10) -/

/-- A JavaScript number for the one computation where IEEE special values
matter: finite value, the two infinities, or NaN.  Signed zeros are collapsed
onto the single rational zero; no computation below distinguishes them. -/
inductive JsNum where
  | fin (q : ℚ)
  | posInf
  | negInf
  | nan
deriving DecidableEq, Repr

/-- `Number.isFinite`. -/
def JsNum.isFinite : JsNum → Bool
  | .fin _ => true
  | _ => false

/-- IEEE-754 / JavaScript multiplication on `JsNum`. -/
def jsMul : JsNum → JsNum → JsNum
  | .fin a, .fin b => .fin (a * b)
  | .fin a, .posInf => if 0 < a then .posInf else if a < 0 then .negInf else .nan
  | .fin a, .negInf => if 0 < a then .negInf else if a < 0 then .posInf else .nan
  | .posInf, .fin b => if 0 < b then .posInf else if b < 0 then .negInf else .nan
  | .negInf, .fin b => if 0 < b then .negInf else if b < 0 then .posInf else .nan
  | .posInf, .posInf => .posInf
  | .posInf, .negInf => .negInf
  | .negInf, .posInf => .negInf
  | .negInf, .negInf => .posInf
  | _, _ => .nan

/-- IEEE-754 / JavaScript division on `JsNum` (zero divisor of a nonzero
finite dividend gives an infinity, `0 / 0` gives NaN). -/
def jsDiv : JsNum → JsNum → JsNum
  | .fin a, .fin b =>
      if b = 0 then (if 0 < a then .posInf else if a < 0 then .negInf else .nan)
      else .fin (a / b)
  | .fin _, .posInf => .fin 0
  | .fin _, .negInf => .fin 0
  | .posInf, .fin b => if 0 ≤ b then .posInf else .negInf
  | .negInf, .fin b => if 0 ≤ b then .negInf else .posInf
  | _, _ => .nan

/-- A 3D point whose coordinates carry IEEE special values. -/
structure JsVec3 where
  x : JsNum
  y : JsNum
  z : JsNum
deriving DecidableEq, Repr

/-- `normalizePoints` with the final `scale / maxDim` division and the
coordinate multiplications performed in JavaScript-number semantics.  The
bounding box itself is finite arithmetic on the (finite, rational) inputs. -/
def normalizePointsJs (points : List Vec3) (scale : ℚ) : List JsVec3 :=
  match points with
  | [] => []
  | p :: ps =>
    let center := bboxCenter p ps
    let k := jsDiv (.fin scale) (.fin (bboxMaxDim p ps))
    (p :: ps).map fun q =>
      ⟨jsMul (.fin (q.x - center.x)) k, jsMul (.fin (q.y - center.y)) k,
       jsMul (.fin (q.z - center.z)) k⟩

lemma bboxMin_const (p : Vec3) (ps : List Vec3) (hall : ∀ q ∈ ps, q = p) :
    bboxMin p ps = p := by
  induction ps with
  | nil => rfl
  | cons q qs ih =>
      have hq : q = p := hall q (by simp)
      have hqs : ∀ r ∈ qs, r = p := fun r hr => hall r (by simp [hr])
      show bboxMin (vmin p q) qs = p
      rw [hq]
      have : vmin p p = p := by cases p; simp [vmin]
      rw [this]
      exact ih hqs

lemma bboxMax_const (p : Vec3) (ps : List Vec3) (hall : ∀ q ∈ ps, q = p) :
    bboxMax p ps = p := by
  induction ps with
  | nil => rfl
  | cons q qs ih =>
      have hq : q = p := hall q (by simp)
      have hqs : ∀ r ∈ qs, r = p := fun r hr => hall r (by simp [hr])
      show bboxMax (vmax p q) qs = p
      rw [hq]
      have : vmax p p = p := by cases p; simp [vmax]
      rw [this]
      exact ih hqs

/-- C10: `normalizePoints` divides by the longest bounding-box dimension with
no guard.  For a non-empty point set whose points all coincide, that dimension
is exactly 0, the scale factor `10 / 0` is the IEEE infinity, and every
returned coordinate is non-finite (NaN, since each centered coordinate is 0).
Conversely, when the longest dimension is strictly positive every returned
coordinate is finite, so the operation is well-defined exactly under that
precondition. -/
theorem normalize_degenerate_division_by_zero :
    (∀ (p : Vec3) (ps : List Vec3), (∀ q ∈ ps, q = p) →
      bboxMaxDim p ps = 0 ∧
      jsDiv (.fin 10) (.fin (bboxMaxDim p ps)) = .posInf ∧
      ∀ w ∈ normalizePointsJs (p :: ps) 10,
        w.x.isFinite = false ∧ w.y.isFinite = false ∧ w.z.isFinite = false) ∧
    (∀ (p : Vec3) (ps : List Vec3) (scale : ℚ), 0 < bboxMaxDim p ps →
      ∀ w ∈ normalizePointsJs (p :: ps) scale,
        w.x.isFinite = true ∧ w.y.isFinite = true ∧ w.z.isFinite = true) := by
  constructor
  · intro p ps hall
    have hmin := bboxMin_const p ps hall
    have hmax := bboxMax_const p ps hall
    have hdim : bboxMaxDim p ps = 0 := by
      rw [bboxMaxDim, bboxSize, hmin, hmax]
      cases p; simp [Vec3.sub_def]
    have hdiv : jsDiv (.fin 10) (.fin (bboxMaxDim p ps)) = .posInf := by
      rw [hdim]; norm_num [jsDiv]
    refine ⟨hdim, hdiv, ?_⟩
    intro w hw
    have hc : bboxCenter p ps = p := by
      rw [bboxCenter, hmin, hmax]
      cases p with
      | mk a b c =>
          simp only [Vec3.add_def, Vec3.smul, Vec3.mk.injEq]
          refine ⟨by ring, by ring, by ring⟩
    rw [normalizePointsJs] at hw
    simp only [hdiv, hc, List.mem_map, List.mem_cons] at hw
    obtain ⟨q, hq, hwq⟩ := hw
    have hqp : q = p := by
      rcases hq with h | h
      · exact h
      · exact hall q h
    subst hqp
    subst hwq
    cases q with
    | mk a b c => simp [jsMul, JsNum.isFinite]
  · intro p ps scale hdim w hw
    rw [normalizePointsJs] at hw
    have hne : bboxMaxDim p ps ≠ 0 := ne_of_gt hdim
    have hdiv : jsDiv (.fin scale) (.fin (bboxMaxDim p ps)) =
        .fin (scale / bboxMaxDim p ps) := by
      rw [jsDiv]; simp [hne]
    simp only [hdiv, List.mem_map] at hw
    obtain ⟨q, _, hwq⟩ := hw
    subst hwq
    simp [jsMul, JsNum.isFinite]

/-- Witness for C10: two coincident points `(1,2,3)` produce non-finite
output coordinates. -/
theorem normalize_degenerate_division_by_zero_witness :
    ∀ w ∈ normalizePointsJs [⟨1, 2, 3⟩, ⟨1, 2, 3⟩] 10,
      w.x.isFinite = false ∧ w.y.isFinite = false ∧ w.z.isFinite = false := by
  have h := normalize_degenerate_division_by_zero.1 ⟨1, 2, 3⟩ [⟨1, 2, 3⟩]
    (by intro q hq; simpa using hq)
  exact h.2.2

/-! ## Molecular geometry builder (`molecules.js`) -/

/-- An atom of a molecule: element symbol and position. -/
structure Atom where
  element : String
  pos : Vec3

/-- A bond `[index1, index2, order, type]`; the source defaults a missing
order entry to 1 (`bond[2] || 1`) and a missing type to `"covalent"`. -/
structure Bond where
  a : ℕ
  b : ℕ
  order : ℕ
  kind : String

/-- A molecule: named list of atoms and bonds. -/
structure Molecule where
  name : String
  atoms : List Atom
  bonds : List Bond

/-- The `RADII` table (van der Waals, relative). -/
def RADII (e : String) : Option ℚ :=
  if e = "H" then some (1/2)
  else if e = "C" then some (17/20)
  else if e = "O" then some (3/4)
  else if e = "N" then some (3/4)
  else if e = "Cl" then some (9/10)
  else if e = "Na" then some 1
  else none

/-- `RADII[atom.element] || 0.7`. -/
def radiusOf (e : String) : ℚ := (RADII e).getD (7/10)

/-- The `COLORS` CPK table (hex channels divided by 255). -/
def COLORS (e : String) : Option Color :=
  if e = "H" then some ⟨1, 1, 1⟩
  else if e = "C" then some ⟨144/255, 144/255, 144/255⟩
  else if e = "O" then some ⟨1, 48/255, 48/255⟩
  else if e = "N" then some ⟨48/255, 80/255, 248/255⟩
  else if e = "Cl" then some ⟨31/255, 240/255, 31/255⟩
  else if e = "Na" then some ⟨171/255, 92/255, 242/255⟩
  else none

/-- `COLORS[atom.element] || new THREE.Color(0xff00ff)`. -/
def colorOf (e : String) : Color := (COLORS e).getD ⟨1, 0, 1⟩

/-- The built-in `MOLECULES` catalog. -/
def MOLECULES (t : String) : Option Molecule :=
  if t = "H2O" then some
    { name := "Water"
      atoms := [⟨"O", ⟨0, 0, 0⟩⟩, ⟨"H", ⟨76/100, 59/100, 0⟩⟩, ⟨"H", ⟨-76/100, 59/100, 0⟩⟩]
      bonds := [⟨0, 1, 1, "covalent"⟩, ⟨0, 2, 1, "covalent"⟩] }
  else if t = "CO2" then some
    { name := "Carbon Dioxide"
      atoms := [⟨"C", ⟨0, 0, 0⟩⟩, ⟨"O", ⟨116/100, 0, 0⟩⟩, ⟨"O", ⟨-116/100, 0, 0⟩⟩]
      bonds := [⟨0, 1, 2, "covalent"⟩, ⟨0, 2, 2, "covalent"⟩] }
  else if t = "Methane" then some
    { name := "Methane"
      atoms := [⟨"C", ⟨0, 0, 0⟩⟩, ⟨"H", ⟨63/100, 63/100, 63/100⟩⟩,
        ⟨"H", ⟨-63/100, -63/100, 63/100⟩⟩, ⟨"H", ⟨-63/100, 63/100, -63/100⟩⟩,
        ⟨"H", ⟨63/100, -63/100, -63/100⟩⟩]
      bonds := [⟨0, 1, 1, "covalent"⟩, ⟨0, 2, 1, "covalent"⟩, ⟨0, 3, 1, "covalent"⟩,
        ⟨0, 4, 1, "covalent"⟩] }
  else if t = "NH3" then some
    { name := "Ammonia"
      atoms := [⟨"N", ⟨0, 0, 0⟩⟩, ⟨"H", ⟨94/100, 38/100, 0⟩⟩,
        ⟨"H", ⟨-47/100, 38/100, 81/100⟩⟩, ⟨"H", ⟨-47/100, 38/100, -81/100⟩⟩]
      bonds := [⟨0, 1, 1, "covalent"⟩, ⟨0, 2, 1, "covalent"⟩, ⟨0, 3, 1, "covalent"⟩] }
  else if t = "O2" then some
    { name := "Oxygen"
      atoms := [⟨"O", ⟨-6/10, 0, 0⟩⟩, ⟨"O", ⟨6/10, 0, 0⟩⟩]
      bonds := [⟨0, 1, 2, "covalent"⟩] }
  else if t = "N2" then some
    { name := "Nitrogen"
      atoms := [⟨"N", ⟨-55/100, 0, 0⟩⟩, ⟨"N", ⟨55/100, 0, 0⟩⟩]
      bonds := [⟨0, 1, 3, "covalent"⟩] }
  else if t = "HCl" then some
    { name := "Hydrogen Chloride"
      atoms := [⟨"H", ⟨-64/100, 0, 0⟩⟩, ⟨"Cl", ⟨64/100, 0, 0⟩⟩]
      bonds := [⟨0, 1, 1, "ionic"⟩] }
  else if t = "Ethanol" then some
    { name := "Ethanol"
      atoms := [⟨"C", ⟨-75/100, 0, 0⟩⟩, ⟨"C", ⟨75/100, 0, 0⟩⟩, ⟨"O", ⟨125/100, 12/10, 0⟩⟩,
        ⟨"H", ⟨18/10, 17/10, 0⟩⟩, ⟨"H", ⟨-12/10, 9/10, 0⟩⟩,
        ⟨"H", ⟨-12/10, -45/100, 78/100⟩⟩, ⟨"H", ⟨-12/10, -45/100, -78/100⟩⟩,
        ⟨"H", ⟨12/10, -45/100, 78/100⟩⟩, ⟨"H", ⟨12/10, -45/100, -78/100⟩⟩]
      bonds := [⟨0, 1, 1, "covalent"⟩, ⟨1, 2, 1, "covalent"⟩, ⟨2, 3, 1, "covalent"⟩,
        ⟨0, 4, 1, "covalent"⟩, ⟨0, 5, 1, "covalent"⟩, ⟨0, 6, 1, "covalent"⟩,
        ⟨1, 7, 1, "covalent"⟩, ⟨1, 8, 1, "covalent"⟩] }
  else none

/-- The molecule `generateMolecule` actually uses: the catalog lookup,
overridden by `customData` when `type === 'custom'` and custom data exists. -/
def moleculeResolve (type : String) (customData : Option Molecule) : Option Molecule :=
  if type = "custom" ∧ customData.isSome then customData else MOLECULES type

/-- `Math.floor(numPoints * 0.7)` (exact at every budget the claims use;
see the header note on double rounding). -/
def totalAtomPointsOf (numPoints : ℕ) : ℕ := floorN ((numPoints : ℚ) * (7/10))

/-- `totalBonds > 0 ? Math.floor((numPoints * 0.3) / totalBonds) : 0`. -/
def pointsPerBondOf (numPoints totalBonds : ℕ) : ℕ :=
  if 0 < totalBonds then floorN (((numPoints : ℚ) * (3/10)) / (totalBonds : ℚ)) else 0

/-- `totalVolume`: sum of `r³` over the atoms. -/
def totalVolumeOf (mol : Molecule) : ℚ :=
  mol.atoms.foldl (fun acc a => acc + (radiusOf a.element)^3) 0

/-- Points allocated to one atom:
`Math.floor(totalAtomPoints * (volume / totalVolume))`. -/
def atomPointCount (numPoints : ℕ) (mol : Molecule) (a : Atom) : ℕ :=
  floorN ((totalAtomPointsOf numPoints : ℚ) * ((radiusOf a.element)^3 / totalVolumeOf mol))

/-- `bond[2] || 1`: a zero/missing order is read as 1. -/
def bondOrderOf (b : Bond) : ℕ := if b.order = 0 then 1 else b.order

/-- The sample of one point inside an atom's sphere (three `Math.random()`
draws: `u`, `v` and the radial draw). -/
def atomSpherePoint (M : JsMath) (r : RStream) (center : Vec3) (radius : ℚ) (i : ℕ) : Vec3 :=
  let u := r (3 * i)
  let v := r (3 * i + 1)
  let theta := 2 * M.pi * u
  let phi := M.acos (2 * v - 1)
  let rad := M.cbrt (r (3 * i + 2)) * radius
  ⟨center.x + rad * M.sin phi * M.cos theta,
   center.y + rad * M.sin phi * M.sin theta,
   center.z + rad * M.cos phi⟩

/-- The `order`-dependent offsets of the sub-cylinders of one bond
(`bondSeparation = 0.15`); an order outside `{1,2,3}` leaves the list empty. -/
def bondOffsets (order : ℕ) (perp : Vec3) : List Vec3 :=
  if order = 1 then [Vec3.zero]
  else if order = 2 then [Vec3.smul (3/40) perp, Vec3.smul (-(3/40)) perp]
  else if order = 3 then [Vec3.zero, Vec3.smul (3/20) perp, Vec3.smul (-(3/20)) perp]
  else []

/-- The `perp` vector of a bond: `(0,1,0) × axis`, replaced by
`(0,0,1) × axis` when its squared length is below `0.001`, then normalized. -/
def bondPerp (M : JsMath) (axis : Vec3) : Vec3 :=
  let perp0 := Vec3.cross ⟨0, 1, 0⟩ axis
  let perp1 :=
    if perp0.x^2 + perp0.y^2 + perp0.z^2 < 1/1000 then Vec3.cross ⟨0, 0, 1⟩ axis else perp0
  M.normalize3 perp1

/-- One cylinder point of a bond: radial/height parameters drawn per the
ionic / covalent branch, rotated from the `y`-axis onto the bond axis, then
translated by the bond start and the sub-bond offset. -/
def bondCylinderPoint (M : JsMath) (r : RStream) (kind : String) (axis start offset : Vec3)
    (len : ℚ) (i : ℕ) : Vec3 :=
  let rth :=
    if kind = "ionic" then
      let rad := (2/5) * M.sqrt (r (4 * i))
      let theta := r (4 * i + 1) * M.pi * 2
      let h := r (4 * i + 2) * len
      (rad, theta, h)
    else
      let theta := r (4 * i) * M.pi * 2
      let rad := (1/20 : ℚ)
      let h := r (4 * i + 1) * len
      (rad, theta, h)
  let p : Vec3 := ⟨rth.1 * M.cos rth.2.1, rth.2.2, rth.1 * M.sin rth.2.1⟩
  (M.rotateFromUpTo axis p + start) + offset

/-- The color of one cylinder point: a lerp of the end-atom colors by the
height fraction, replaced for ionic bonds by electric cyan with a random
lightness offset. -/
def bondCylinderColor (M : JsMath) (r : RStream) (kind : String) (color1 color2 : Color)
    (len : ℚ) (i : ℕ) : Color :=
  if kind = "ionic" then
    M.offsetHSL ⟨0, 1, 1⟩ 0 0 ((r (4 * i + 3) - 1/2) * (1/5))
  else
    let h := r (4 * i + 1) * len
    let t := h / len
    Color.lerp color1 color2 t

/-- The points of one bond: for each offset, `⌊pointsPerBond / order⌋`
cylinder points. -/
def bondBlockPoints (M : JsMath) (r : RStream) (mol : Molecule) (pointsPerBond : ℕ)
    (bond : Bond) : List Vec3 :=
  let atom1 := mol.atoms.getD bond.a ⟨"", Vec3.zero⟩
  let atom2 := mol.atoms.getD bond.b ⟨"", Vec3.zero⟩
  let start := atom1.pos
  let direction := atom2.pos - start
  let len := vlen M direction
  let axis := M.normalize3 direction
  let order := bondOrderOf bond
  let perp := bondPerp M axis
  let pointsPerSubBond := pointsPerBond / order
  ((bondOffsets order perp).map fun offset =>
    (List.range pointsPerSubBond).map fun (i : ℕ) =>
      bondCylinderPoint M r bond.kind axis start offset len i).join

/-- The colors of one bond, index-aligned with `bondBlockPoints`. -/
def bondBlockColors (M : JsMath) (r : RStream) (mol : Molecule) (pointsPerBond : ℕ)
    (bond : Bond) : List Color :=
  let atom1 := mol.atoms.getD bond.a ⟨"", Vec3.zero⟩
  let atom2 := mol.atoms.getD bond.b ⟨"", Vec3.zero⟩
  let len := vlen M (atom2.pos - atom1.pos)
  let order := bondOrderOf bond
  let color1 := (COLORS atom1.element).getD ⟨204/255, 204/255, 204/255⟩
  let color2 := (COLORS atom2.element).getD ⟨204/255, 204/255, 204/255⟩
  let pointsPerSubBond := pointsPerBond / order
  ((bondOffsets order (bondPerp M (M.normalize3 (atom2.pos - atom1.pos)))).map fun _ =>
    (List.range pointsPerSubBond).map fun (i : ℕ) =>
      bondCylinderColor M r bond.kind color1 color2 len i).join

/-- A generator's output: index-aligned point and color lists. -/
structure GenOut where
  points : List Vec3
  colors : List Color

/-- `generateMolecule(type, numPoints, customData)`: 70% of the budget to
atoms (per atom, proportional to radius cubed, floored), 30% to bonds (split
evenly per bond, then per sub-cylinder by order); each atom point drawn
uniformly in its sphere, each bond point on/in its cylinder; finally every
point is scaled by 4.  An unresolvable molecule yields the empty output. -/
def generateMolecule (M : JsMath) (r : RStream) (type : String) (numPoints : ℕ)
    (customData : Option Molecule) : GenOut :=
  match moleculeResolve type customData with
  | none => ⟨[], []⟩
  | some mol =>
    let pointsPerBond := pointsPerBondOf numPoints mol.bonds.length
    let atomPts := (mol.atoms.map fun a =>
      (List.range (atomPointCount numPoints mol a)).map fun (i : ℕ) =>
        atomSpherePoint M r a.pos (radiusOf a.element) i).join
    let atomCols := (mol.atoms.map fun a =>
      (List.range (atomPointCount numPoints mol a)).map fun (_ : ℕ) =>
        colorOf a.element).join
    let bondPts := (mol.bonds.map fun b => bondBlockPoints M r mol pointsPerBond b).join
    let bondCols := (mol.bonds.map fun b => bondBlockColors M r mol pointsPerBond b).join
    ⟨(atomPts ++ bondPts).map (Vec3.smul 4), atomCols ++ bondCols⟩

lemma generateMolecule_points_length (M : JsMath) (r : RStream) (type : String)
    (numPoints : ℕ) (customData : Option Molecule) (mol : Molecule)
    (h : moleculeResolve type customData = some mol) :
    (generateMolecule M r type numPoints customData).points.length =
      (mol.atoms.map fun a => atomPointCount numPoints mol a).sum +
      (mol.bonds.map fun b =>
        (bondOffsets (bondOrderOf b)
            (bondPerp M (M.normalize3
              ((mol.atoms.getD b.b ⟨"", Vec3.zero⟩).pos -
                (mol.atoms.getD b.a ⟨"", Vec3.zero⟩).pos)))).length *
          (pointsPerBondOf numPoints mol.bonds.length / bondOrderOf b)).sum := by
  simp [generateMolecule, h, bondBlockPoints, List.length_join, List.map_map,
    Function.comp_def, List.length_map, List.length_range, List.length_append]

lemma generateMolecule_colors_length (M : JsMath) (r : RStream) (type : String)
    (numPoints : ℕ) (customData : Option Molecule) (mol : Molecule)
    (h : moleculeResolve type customData = some mol) :
    (generateMolecule M r type numPoints customData).colors.length =
      (mol.atoms.map fun a => atomPointCount numPoints mol a).sum +
      (mol.bonds.map fun b =>
        (bondOffsets (bondOrderOf b)
            (bondPerp M (M.normalize3
              ((mol.atoms.getD b.b ⟨"", Vec3.zero⟩).pos -
                (mol.atoms.getD b.a ⟨"", Vec3.zero⟩).pos)))).length *
          (pointsPerBondOf numPoints mol.bonds.length / bondOrderOf b)).sum := by
  simp [generateMolecule, h, bondBlockColors, List.length_join, List.map_map,
    Function.comp_def, List.length_map, List.length_range, List.length_append]

lemma generateMolecule_length_eq (M : JsMath) (r : RStream) (type : String)
    (numPoints : ℕ) (customData : Option Molecule) :
    (generateMolecule M r type numPoints customData).points.length =
      (generateMolecule M r type numPoints customData).colors.length := by
  cases h : moleculeResolve type customData with
  | none => simp [generateMolecule, h]
  | some mol =>
      rw [generateMolecule_points_length M r type numPoints customData mol h,
        generateMolecule_colors_length M r type numPoints customData mol h]

/-! ## Math curve generators (`curves.js`) -/

/-- `Math.ceil` of a JS loop bound: the number of integers `i` with
`i < q` (zero when `q ≤ 0`). -/
def ceilN (q : ℚ) : ℕ := (⌈q⌉).toNat

/-- The recursive subdivision of `generateKochCurve`: at depth 0 emit the
current left endpoint; otherwise split the segment in three, rotate the middle
third by 60° about the (normalized) cross of the up vector and the segment
direction — falling back to the fixed axis `(0,0,1)` when that cross is the
zero vector — and recurse on the four sub-segments. -/
def kochRecurse (M : JsMath) : ℕ → Vec3 → Vec3 → List Vec3
  | 0, p1, _ => [p1]
  | d + 1, p1, p2 =>
      let v := Vec3.smul (1/3) (p2 - p1)
      let p3 := p1 + v
      let p5 := p2 - v
      let axis0 := M.normalize3 (Vec3.cross ⟨0, 1, 0⟩ v)
      let axis := if vlen M axis0 = 0 then (⟨0, 0, 1⟩ : Vec3) else axis0
      let p4 := p3 + M.applyAxisAngle v axis (M.pi / 3)
      kochRecurse M d p1 p3 ++ kochRecurse M d p3 p4 ++
        kochRecurse M d p4 p5 ++ kochRecurse M d p5 p2

/-- `generateKochCurve(numPoints)`: recursion depth 5 over the 6 edges of a
tetrahedron, resampled to `numPoints`. -/
def generateKochCurve (M : JsMath) (numPoints : ℕ) : List Vec3 :=
  let t1 : Vec3 := ⟨5, 5, 5⟩
  let t2 : Vec3 := ⟨-5, -5, 5⟩
  let t3 : Vec3 := ⟨-5, 5, -5⟩
  let t4 : Vec3 := ⟨5, -5, -5⟩
  resample
    (kochRecurse M 5 t1 t2 ++ kochRecurse M 5 t2 t3 ++ kochRecurse M 5 t3 t4 ++
      kochRecurse M 5 t4 t1 ++ kochRecurse M 5 t1 t3 ++ kochRecurse M 5 t2 t4)
    numPoints

/-- `generateCardioid(numPoints)` (one random draw per point, for the `z`
thickness). -/
def generateCardioid (M : JsMath) (r : RStream) (numPoints : ℕ) : List Vec3 :=
  normalizePoints
    ((List.range numPoints).map fun (i : ℕ) =>
      let t := ((i : ℚ) / (numPoints : ℚ)) * M.pi * 2
      ⟨5 * (2 * M.cos t - M.cos (2 * t)), 5 * (2 * M.sin t - M.sin (2 * t)),
        (r i - 1/2) * 2⟩)
    10

/-- `generateButterfly(numPoints)`. -/
def generateButterfly (M : JsMath) (numPoints : ℕ) : List Vec3 :=
  normalizePoints
    ((List.range numPoints).map fun (i : ℕ) =>
      let t := ((i : ℚ) / (numPoints : ℚ)) * 12 * M.pi
      let e := M.exp (M.cos t)
      let term2 := 2 * M.cos (4 * t)
      let term3 := M.pow (M.sin (t / 12)) 5
      let rr := e - term2 + term3
      ⟨rr * M.sin t, rr * M.cos t, rr * M.sin (t * 2) * (1/2)⟩)
    10

/-- `generateSpiral(numPoints)`. -/
def generateSpiral (M : JsMath) (numPoints : ℕ) : List Vec3 :=
  normalizePoints
    ((List.range numPoints).map fun (i : ℕ) =>
      let t := ((i : ℚ) / (numPoints : ℚ)) * 20 * M.pi
      let rr := (1/2) * t
      ⟨rr * M.cos t, rr * M.sin t, t * (1/2)⟩)
    10

/-- `generateCatenary(numPoints)`: the first computed `t`, `x`, `y`, `theta`
and `r` are dead code in the source (kept here as unused bindings); the emitted
point is the catenoid-surface sample. -/
def generateCatenary (M : JsMath) (r : RStream) (numPoints : ℕ) : List Vec3 :=
  normalizePoints
    ((List.range numPoints).map fun (i : ℕ) =>
      let t := ((i : ℚ) / (numPoints : ℚ) - 1/2) * 6
      let x := t
      let _y := 2 * M.cosh (t / 2)
      let _theta := r i * M.pi * 2
      let _rr := |x|
      let u := ((i : ℚ) / (numPoints : ℚ)) * M.pi * 2
      let v := (((i % 100 : ℕ) : ℚ) / 100 - 1/2) * 4
      ⟨2 * M.cosh (v / 2) * M.cos u, 2 * M.cosh (v / 2) * M.sin u, v⟩)
    10

/-- `generateLemniscate(numPoints)`. -/
def generateLemniscate (M : JsMath) (numPoints : ℕ) : List Vec3 :=
  normalizePoints
    ((List.range numPoints).map fun (i : ℕ) =>
      let t := ((i : ℚ) / (numPoints : ℚ)) * 2 * M.pi
      let denom := 1 + M.sin t * M.sin t
      let x := 5 * M.cos t / denom
      ⟨x, 5 * M.sin t * M.cos t / denom, x * M.sin (t * 2) * (1/2)⟩)
    10

/-- `generateRose(numPoints)` with `k = 4` petals. -/
def generateRose (M : JsMath) (numPoints : ℕ) : List Vec3 :=
  normalizePoints
    ((List.range numPoints).map fun (i : ℕ) =>
      let t := ((i : ℚ) / (numPoints : ℚ)) * 2 * M.pi
      let rr := M.cos (4 * t)
      ⟨rr * M.cos t, rr * M.sin t, M.sin (4 * t) * (1/2)⟩)
    10

/-- `generateKleinBottle(numPoints)` (normalized with target extent 8). -/
def generateKleinBottle (M : JsMath) (numPoints : ℕ) : List Vec3 :=
  normalizePoints
    ((List.range numPoints).map fun (i : ℕ) =>
      let u := ((i : ℚ) / (numPoints : ℚ)) * 2 * M.pi
      let v := (((i * 7) % numPoints : ℕ) : ℚ) / (numPoints : ℚ) * 2 * M.pi
      let rr := 4 * (1 - M.cos u / 2)
      if u < M.pi then
        ⟨6 * M.cos u * (1 + M.sin u) + rr * M.cos u * M.cos v,
          16 * M.sin u + rr * M.sin u * M.cos v, rr * M.sin v⟩
      else
        ⟨6 * M.cos u * (1 + M.sin u) + rr * M.cos (v + M.pi),
          16 * M.sin u, rr * M.sin v⟩)
    8

/-- The escape-time loop of `generateMandelbulb` (power 8, bailout 2): from
the remaining fuel and the current iterate it returns the final iterate and
the number of iterations actually executed. -/
def mandelLoop (M : JsMath) (x0 y0 z0 : ℚ) : ℕ → Vec3 → Vec3 × ℕ
  | 0, p => (p, 0)
  | fuel + 1, p =>
      let rr := M.sqrt (p.x * p.x + p.y * p.y + p.z * p.z)
      if 2 < rr then (p, 0)
      else
        let theta := M.atan2 (M.sqrt (p.x * p.x + p.y * p.y)) p.z
        let phi := M.atan2 p.y p.x
        let rPow := M.pow rr 8
        let p' : Vec3 :=
          ⟨rPow * M.sin (theta * 8) * M.cos (phi * 8) + x0,
            rPow * M.sin (theta * 8) * M.sin (phi * 8) + y0,
            rPow * M.cos (theta * 8) + z0⟩
        let res := mandelLoop M x0 y0 z0 fuel p'
        (res.1, res.2 + 1)

/-- `generateMandelbulb(numPoints)`: `numPoints` random spherical samples are
iterated (cap 10); only those whose iteration count lies strictly inside the
open band `(2, 10)` are kept; if fewer than `numPoints / 2` survive, spherical
shell points are appended until that bound is reached; then normalization. -/
def generateMandelbulb (M : JsMath) (r : RStream) (numPoints : ℕ) : List Vec3 :=
  let survivors := (List.range numPoints).filterMap fun (i : ℕ) =>
    let theta := r (3 * i) * M.pi * 2
    let phi := M.acos (2 * r (3 * i + 1) - 1)
    let rad := M.cbrt (r (3 * i + 2)) * (3/2)
    let x0 := rad * M.sin phi * M.cos theta
    let y0 := rad * M.sin phi * M.sin theta
    let z0 := rad * M.cos phi
    let res := mandelLoop M x0 y0 z0 10 ⟨0, 0, 0⟩
    if 2 < res.2 ∧ res.2 < 10 then some res.1 else none
  let pad := (List.range ((numPoints + 1) / 2 - survivors.length)).map fun (j : ℕ) =>
    let theta := r (3 * numPoints + 3 * j) * M.pi * 2
    let phi := M.acos (2 * r (3 * numPoints + 3 * j + 1) - 1)
    let rad := 4/5 + r (3 * numPoints + 3 * j + 2) * (2/5)
    (⟨rad * M.sin phi * M.cos theta, rad * M.sin phi * M.sin theta, rad * M.cos phi⟩ : Vec3)
  normalizePoints (survivors ++ pad) 10

/-- One row of the `orbitals` table of `generateElectronOrbitals`. -/
structure Orbital where
  otype : String
  n : ℕ
  l : ℕ
  m : ℕ
  count : ℚ

/-- The four orbitals with their fractional point budgets. -/
def orbitalsList (numPoints : ℕ) : List Orbital :=
  [⟨"s", 1, 0, 0, (numPoints : ℚ) * (1/5)⟩,
   ⟨"p", 2, 1, 0, (numPoints : ℚ) * (3/10)⟩,
   ⟨"p", 2, 1, 1, (numPoints : ℚ) * (1/4)⟩,
   ⟨"d", 3, 2, 0, (numPoints : ℚ) * (1/4)⟩]

/-- `generateElectronOrbitals(numPoints)`: each orbital's loop runs while
`i < count` with a fractional `count`, i.e. `⌈count⌉` times. -/
def generateElectronOrbitals (M : JsMath) (r : RStream) (numPoints : ℕ) : List Vec3 :=
  normalizePoints
    (((orbitalsList numPoints).map fun o =>
      (List.range (ceilN o.count)).map fun (i : ℕ) =>
        let rad := M.pow (r (3 * i)) (3/2) * ((o.n : ℚ) * (o.n : ℚ)) * 2
        let theta := r (3 * i + 1) * M.pi
        let phi := r (3 * i + 2) * 2 * M.pi
        let af :=
          if o.l = 1 then |M.sin theta * M.cos (phi + (o.m : ℚ) * M.pi / 2)|
          else if o.l = 2 then |M.sin theta * M.sin theta * M.cos (2 * phi)|
          else 1
        let effR := rad * (1/2 + af)
        (⟨effR * M.sin theta * M.cos phi, effR * M.sin theta * M.sin phi,
          effR * M.cos theta⟩ : Vec3)).join)
    10

/-- A quaternion iterate of the Julia loop. -/
structure Quat4 where
  r : ℚ
  i : ℚ
  j : ℚ
  k : ℚ

/-- The escape-time loop of `generateQuaternionJulia`
(`q ↦ q² + c`, `c = (-0.2, 0.6, 0.2, 0.2)`, bailout 4). -/
def juliaLoop (M : JsMath) : ℕ → Quat4 → Quat4 × ℕ
  | 0, q => (q, 0)
  | fuel + 1, q =>
      let mag := M.sqrt (q.r * q.r + q.i * q.i + q.j * q.j + q.k * q.k)
      if 4 < mag then (q, 0)
      else
        let q' : Quat4 :=
          ⟨q.r * q.r - q.i * q.i - q.j * q.j - q.k * q.k + (-(1/5)),
            2 * q.r * q.i + 3/5, 2 * q.r * q.j + 1/5, 2 * q.r * q.k + 1/5⟩
        let res := juliaLoop M fuel q'
        (res.1, res.2 + 1)

/-- `generateQuaternionJulia(numPoints)`: cap 15, retention band `(3, 14)`,
projection to 3D by dropping the `k` component, padding while fewer than
`numPoints / 3` points, then normalization. -/
def generateQuaternionJulia (M : JsMath) (r : RStream) (numPoints : ℕ) : List Vec3 :=
  let survivors := (List.range numPoints).filterMap fun (i : ℕ) =>
    let theta := r (4 * i) * M.pi * 2
    let phi := M.acos (2 * r (4 * i + 1) - 1)
    let rad := M.cbrt (r (4 * i + 2)) * (6/5)
    let q0 : Quat4 :=
      ⟨rad * M.sin phi * M.cos theta, rad * M.sin phi * M.sin theta, rad * M.cos phi,
        (r (4 * i + 3) - 1/2) * (1/2)⟩
    let res := juliaLoop M 15 q0
    if 3 < res.2 ∧ res.2 < 14 then some (⟨res.1.r, res.1.i, res.1.j⟩ : Vec3) else none
  let pad := (List.range ((numPoints + 2) / 3 - survivors.length)).map fun (j : ℕ) =>
    let theta := r (4 * numPoints + 3 * j) * M.pi * 2
    let phi := M.acos (2 * r (4 * numPoints + 3 * j + 1) - 1)
    let rad := 4/5 + r (4 * numPoints + 3 * j + 2) * (2/5)
    (⟨rad * M.sin phi * M.cos theta, rad * M.sin phi * M.sin theta, rad * M.cos phi⟩ : Vec3)
  normalizePoints (survivors ++ pad) 10

/-- The `Generators` dispatch map of `curves.js`. -/
def Generators (M : JsMath) (r : RStream) (shape : String) : Option (ℕ → List Vec3) :=
  if shape = "koch" then some (generateKochCurve M)
  else if shape = "cardioid" then some (generateCardioid M r)
  else if shape = "butterfly" then some (generateButterfly M)
  else if shape = "spiral" then some (generateSpiral M)
  else if shape = "catenary" then some (generateCatenary M r)
  else if shape = "lemniscate" then some (generateLemniscate M)
  else if shape = "rose" then some (generateRose M)
  else if shape = "klein" then some (generateKleinBottle M)
  else if shape = "lorenz" then some generateLorenzAttractor
  else if shape = "mandelbulb" then some (generateMandelbulb M r)
  else if shape = "orbitals" then some (generateElectronOrbitals M r)
  else if shape = "julia" then some (generateQuaternionJulia M r)
  else none

lemma normalizePoints_length (l : List Vec3) (s : ℚ) :
    (normalizePoints l s).length = l.length := by
  cases l with
  | nil => rfl
  | cons p ps => simp [normalizePoints]

lemma resample_length_of_ne_nil (src : List Vec3) (t : ℕ) (h : src ≠ []) :
    (resample src t).length = t := by
  have hempty : ¬ (src.isEmpty = true) := by
    simpa [List.isEmpty_iff] using h
  rw [resample, if_neg hempty]
  simp

lemma kochRecurse_length (M : JsMath) (d : ℕ) :
    ∀ p1 p2, (kochRecurse M d p1 p2).length = 4 ^ d := by
  induction d with
  | zero => intro p1 p2; rfl
  | succ d ih =>
      intro p1 p2
      simp only [kochRecurse, List.length_append, ih]
      ring

attribute [irreducible] kochRecurse

lemma generateKochCurve_length (M : JsMath) (numPoints : ℕ) :
    (generateKochCurve M numPoints).length = numPoints := by
  rw [generateKochCurve]
  apply resample_length_of_ne_nil
  intro h
  have := congrArg List.length h
  simp [kochRecurse_length] at this

/-! ## Sculpted artifacts (`artifacts.js`) -/

/-- The two base vertices of triangular face `face` of the pyramid. -/
def pyramidFaceVerts (face : ℕ) : Vec3 × Vec3 :=
  if face = 0 then (⟨-1, 0, 1⟩, ⟨1, 0, 1⟩)
  else if face = 1 then (⟨1, 0, 1⟩, ⟨1, 0, -1⟩)
  else if face = 2 then (⟨1, 0, -1⟩, ⟨-1, 0, -1⟩)
  else (⟨-1, 0, -1⟩, ⟨-1, 0, 1⟩)

/-- `generatePyramid(numPoints)`: each point picks one of 5 faces at random;
triangular faces are sampled barycentrically (with reflection into the
triangle), the base uniformly; colors are a random sandstone HSL. -/
def generatePyramid (M : JsMath) (r : RStream) (numPoints : ℕ) : GenOut :=
  let pts := (List.range numPoints).map fun (i : ℕ) =>
    let face := floorN (r (5 * i) * 5)
    if face < 4 then
      let r1 := r (5 * i + 1)
      let r2 := r (5 * i + 2)
      let rp := if 1 < r1 + r2 then (1 - r1, 1 - r2) else (r1, r2)
      let apex : Vec3 := ⟨0, 3/2, 0⟩
      let vs := pyramidFaceVerts face
      (apex + Vec3.smul rp.1 (vs.1 - apex)) + Vec3.smul rp.2 (vs.2 - apex)
    else
      (⟨(r (5 * i + 1) - 1/2) * 2, 0, (r (5 * i + 2) - 1/2) * 2⟩ : Vec3)
  let cols := (List.range numPoints).map fun (i : ℕ) =>
    M.setHSL (1/10 + r (5 * i + 3) * (1/20)) (3/5) (1/2 + r (5 * i + 4) * (1/5))
  ⟨normalizePoints pts 10, cols⟩

/-- `generateColumn(numPoints)`: fluted cylinder (20 flutes, depth 0.05),
widened by 1.2 below height 1 and above height 9; marble-colored. -/
def generateColumn (M : JsMath) (r : RStream) (numPoints : ℕ) : GenOut :=
  let pts := (List.range numPoints).map fun (i : ℕ) =>
    let h := r (5 * i) * 10
    let theta := r (5 * i + 1) * M.pi * 2
    let rr := 1 + M.cos (theta * 20) * (1/20)
    let x := rr * M.cos theta
    let z := rr * M.sin theta
    if h < 1 ∨ 9 < h then (⟨x * (6/5), h, z * (6/5)⟩ : Vec3)
    else (⟨x, h, z⟩ : Vec3)
  let cols := (List.range numPoints).map fun (i : ℕ) =>
    M.setHSL 0 0 (9/10 + r (5 * i + 2) * (1/10))
  ⟨normalizePoints pts 10, cols⟩

/-- `generateVase(numPoints)`: sinusoidal radius-vs-height profile,
terracotta-colored. -/
def generateVase (M : JsMath) (r : RStream) (numPoints : ℕ) : GenOut :=
  let pts := (List.range numPoints).map fun (i : ℕ) =>
    let t := r (5 * i)
    let y := t * 10
    let rr := 3/2 + M.sin (t * M.pi * 2) * (1/2) + M.sin (t * M.pi * 4) * (1/5)
    let theta := r (5 * i + 1) * M.pi * 2
    (⟨rr * M.cos theta, y, rr * M.sin theta⟩ : Vec3)
  let cols := (List.range numPoints).map fun (i : ℕ) =>
    M.setHSL (1/20 + r (5 * i + 2) * (1/20)) (7/10) (2/5 + r (5 * i + 3) * (1/5))
  ⟨normalizePoints pts 10, cols⟩

/-- `generateArtifact(type, numPoints)`: dispatch with pyramid default. -/
def generateArtifact (M : JsMath) (r : RStream) (type : String) (numPoints : ℕ) : GenOut :=
  if type = "pyramid" then generatePyramid M r numPoints
  else if type = "column" then generateColumn M r numPoints
  else if type = "vase" then generateVase M r numPoints
  else generatePyramid M r numPoints

lemma generatePyramid_length (M : JsMath) (r : RStream) (numPoints : ℕ) :
    (generatePyramid M r numPoints).points.length = numPoints ∧
      (generatePyramid M r numPoints).colors.length = numPoints := by
  constructor <;> simp [generatePyramid, normalizePoints_length]

lemma generateColumn_length (M : JsMath) (r : RStream) (numPoints : ℕ) :
    (generateColumn M r numPoints).points.length = numPoints ∧
      (generateColumn M r numPoints).colors.length = numPoints := by
  constructor <;> simp [generateColumn, normalizePoints_length]

lemma generateVase_length (M : JsMath) (r : RStream) (numPoints : ℕ) :
    (generateVase M r numPoints).points.length = numPoints ∧
      (generateVase M r numPoints).colors.length = numPoints := by
  constructor <;> simp [generateVase, normalizePoints_length]

lemma generateArtifact_length (M : JsMath) (r : RStream) (type : String) (numPoints : ℕ) :
    (generateArtifact M r type numPoints).points.length = numPoints ∧
      (generateArtifact M r type numPoints).colors.length = numPoints := by
  rw [generateArtifact]
  split
  · exact generatePyramid_length M r numPoints
  · split
    · exact generateColumn_length M r numPoints
    · split
      · exact generateVase_length M r numPoints
      · exact generatePyramid_length M r numPoints

/-! ## Star field (`galaxy.js`) -/

/-- One catalog row: name, right ascension (hours), declination (degrees),
distance (light years), spectral type, magnitude. -/
structure StarEntry where
  sname : String
  ra : ℚ
  dec : ℚ
  dist : ℚ
  stype : String
  mag : ℚ

/-- The star catalog. -/
def starData : List StarEntry :=
  [⟨"Sun", 0, 0, 0, "G2", -267/10⟩,
   ⟨"Sirius", 675/100, -167/10, 86/10, "A1", -146/100⟩,
   ⟨"Canopus", 64/10, -527/10, 310, "F0", -74/100⟩,
   ⟨"Alpha Centauri", 1466/100, -608/10, 437/100, "G2", -27/100⟩,
   ⟨"Arcturus", 1426/100, 191/10, 37, "K0", -5/100⟩,
   ⟨"Vega", 186/10, 388/10, 25, "A0", 3/100⟩,
   ⟨"Capella", 527/100, 46, 42, "G3", 8/100⟩,
   ⟨"Rigel", 524/100, -82/10, 860, "B8", 13/100⟩,
   ⟨"Procyon", 765/100, 52/10, 114/10, "F5", 34/100⟩,
   ⟨"Betelgeuse", 592/100, 74/10, 640, "M1", 42/100⟩,
   ⟨"Achernar", 163/100, -572/10, 144, "B6", 46/100⟩,
   ⟨"Hadar", 1406/100, -604/10, 390, "B1", 61/100⟩,
   ⟨"Altair", 1985/100, 89/10, 167/10, "A7", 76/100⟩,
   ⟨"Acrux", 1244/100, -631/10, 320, "B0", 76/100⟩,
   ⟨"Aldebaran", 46/10, 165/10, 65, "K5", 86/100⟩,
   ⟨"Antares", 1649/100, -264/10, 600, "M1", 96/100⟩,
   ⟨"Spica", 1342/100, -112/10, 250, "B1", 97/100⟩,
   ⟨"Pollux", 776/100, 28, 34, "K0", 114/100⟩,
   ⟨"Fomalhaut", 2296/100, -296/10, 25, "A3", 116/100⟩,
   ⟨"Deneb", 2069/100, 453/10, 2600, "A2", 125/100⟩,
   ⟨"Mimosa", 128/10, -597/10, 280, "B0", 125/100⟩,
   ⟨"Regulus", 1014/100, 119/10, 79, "B7", 136/100⟩,
   ⟨"Adhara", 698/100, -289/10, 430, "B2", 15/10⟩,
   ⟨"Castor", 758/100, 319/10, 52, "A1", 158/100⟩,
   ⟨"Gacrux", 1252/100, -571/10, 88, "M3", 164/100⟩,
   ⟨"Shaula", 1756/100, -371/10, 700, "B1", 162/100⟩]

/-- `celestialToCartesian(ra, dec, dist)`. -/
def celestialToCartesian (M : JsMath) (ra dec dist : ℚ) : Vec3 :=
  let phi := ra * 15 * (M.pi / 180)
  let theta := dec * (M.pi / 180)
  ⟨dist * M.cos theta * M.cos phi, dist * M.cos theta * M.sin phi, dist * M.sin theta⟩

/-- `colorFromType`: spectral-type letter to color. -/
def colorFromType (t : String) : Color :=
  if t.startsWith "O" then ⟨155/255, 176/255, 1⟩
  else if t.startsWith "B" then ⟨170/255, 191/255, 1⟩
  else if t.startsWith "A" then ⟨202/255, 215/255, 1⟩
  else if t.startsWith "F" then ⟨248/255, 247/255, 1⟩
  else if t.startsWith "G" then ⟨1, 244/255, 234/255⟩
  else if t.startsWith "K" then ⟨1, 210/255, 161/255⟩
  else if t.startsWith "M" then ⟨1, 204/255, 111/255⟩
  else ⟨1, 1, 1⟩

/-- `generateGalaxy(numPoints)`: the 26 catalog stars (log-compressed
distance) followed by `numPoints - 26` random faint background stars. -/
def generateGalaxy (M : JsMath) (r : RStream) (numPoints : ℕ) : GenOut :=
  let starPts := starData.map fun s =>
    let d := if 0 < s.dist then M.log10 (s.dist + 1) * 5 else s.dist
    celestialToCartesian M s.ra s.dec d
  let starCols := starData.map fun s => colorFromType s.stype
  let remaining := numPoints - starData.length
  let bgPts := (List.range remaining).map fun (i : ℕ) =>
    celestialToCartesian M (r (5 * i) * 24) ((r (5 * i + 1) - 1/2) * 180)
      (15 + r (5 * i + 2) * 15)
  let bgCols := (List.range remaining).map fun (i : ℕ) =>
    M.setHSL (3/5 + r (5 * i + 3) * (1/10)) (1/5) (r (5 * i + 4) * (1/2))
  ⟨starPts ++ bgPts, starCols ++ bgCols⟩

lemma generateGalaxy_length (M : JsMath) (r : RStream) (numPoints : ℕ) :
    (generateGalaxy M r numPoints).points.length =
      starData.length + (numPoints - starData.length) ∧
    (generateGalaxy M r numPoints).colors.length =
      starData.length + (numPoints - starData.length) := by
  constructor <;> simp [generateGalaxy]

/-! ## Voxel text (`text3d.js`) -/

/-- The 7×5 bitmap of one letter, when the letter is in the table. -/
def letterPatterns (ch : Char) : Option (List (List ℕ)) :=
  if ch = 'T' then some
    [[1, 1, 1, 1, 1], [0, 0, 1, 0, 0], [0, 0, 1, 0, 0], [0, 0, 1, 0, 0],
     [0, 0, 1, 0, 0], [0, 0, 1, 0, 0], [0, 0, 1, 0, 0]]
  else if ch = 'H' then some
    [[1, 0, 0, 0, 1], [1, 0, 0, 0, 1], [1, 0, 0, 0, 1], [1, 1, 1, 1, 1],
     [1, 0, 0, 0, 1], [1, 0, 0, 0, 1], [1, 0, 0, 0, 1]]
  else if ch = 'I' then some
    [[0, 1, 1, 1, 0], [0, 0, 1, 0, 0], [0, 0, 1, 0, 0], [0, 0, 1, 0, 0],
     [0, 0, 1, 0, 0], [0, 0, 1, 0, 0], [0, 1, 1, 1, 0]]
  else if ch = 'S' then some
    [[0, 1, 1, 1, 1], [1, 0, 0, 0, 0], [1, 0, 0, 0, 0], [0, 1, 1, 1, 0],
     [0, 0, 0, 0, 1], [0, 0, 0, 0, 1], [1, 1, 1, 1, 0]]
  else if ch = 'N' then some
    [[1, 0, 0, 0, 1], [1, 1, 0, 0, 1], [1, 0, 1, 0, 1], [1, 0, 0, 1, 1],
     [1, 0, 0, 0, 1], [1, 0, 0, 0, 1], [1, 0, 0, 0, 1]]
  else if ch = 'E' then some
    [[1, 1, 1, 1, 1], [1, 0, 0, 0, 0], [1, 0, 0, 0, 0], [1, 1, 1, 1, 0],
     [1, 0, 0, 0, 0], [1, 0, 0, 0, 0], [1, 1, 1, 1, 1]]
  else if ch = 'X' then some
    [[1, 0, 0, 0, 1], [0, 1, 0, 1, 0], [0, 0, 1, 0, 0], [0, 0, 1, 0, 0],
     [0, 0, 1, 0, 0], [0, 1, 0, 1, 0], [1, 0, 0, 0, 1]]
  else if ch = 'U' then some
    [[1, 0, 0, 0, 1], [1, 0, 0, 0, 1], [1, 0, 0, 0, 1], [1, 0, 0, 0, 1],
     [1, 0, 0, 0, 1], [1, 0, 0, 0, 1], [0, 1, 1, 1, 0]]
  else if ch = ' ' then some
    [[0, 0, 0, 0, 0], [0, 0, 0, 0, 0], [0, 0, 0, 0, 0], [0, 0, 0, 0, 0],
     [0, 0, 0, 0, 0], [0, 0, 0, 0, 0], [0, 0, 0, 0, 0]]
  else none

/-- The blank 7×5 pattern, the `letterPatterns[' ']` fallback for unknown
characters. -/
def spacePattern : List (List ℕ) :=
  [[0, 0, 0, 0, 0], [0, 0, 0, 0, 0], [0, 0, 0, 0, 0], [0, 0, 0, 0, 0],
   [0, 0, 0, 0, 0], [0, 0, 0, 0, 0], [0, 0, 0, 0, 0]]

/-- An active voxel of the rasterized text. -/
structure Voxel where
  x : ℚ
  y : ℚ
  z : ℚ
  charIndex : ℕ
  totalChars : ℕ

/-- The voxels of one character's bitmap at horizontal offset `xOffset`:
each `1` cell yields `depth = 3` voxels. -/
def voxelsOfPattern (charIdx total : ℕ) (xOffset : ℚ) (pattern : List (List ℕ)) :
    List Voxel :=
  ((pattern.enum.map fun rc =>
    ((rc.2.enum.map fun cc =>
      if cc.2 = 1 then
        (List.range 3).map fun (d : ℕ) =>
          (⟨xOffset + (cc.1 : ℚ) * (6/5),
            ((pattern.length - rc.1 - 1 : ℕ) : ℚ) * (6/5) - 4,
            (d : ℚ) * (6/5) - 9/5, charIdx, total⟩ : Voxel)
      else []) : List (List Voxel)).join) : List (List Voxel)).join

/-- The fixed text. -/
def textString : List Char := "THIS NEXUS".toList

/-- All voxels before horizontal centering; character `i` starts at
`i * (letterSpacing + 5 * 1.2) = i * 8.5`. -/
def textVoxelsRaw : List Voxel :=
  (textString.enum.map fun ic =>
    voxelsOfPattern ic.1 textString.length ((ic.1 : ℚ) * (17/2))
      ((letterPatterns ic.2).getD spacePattern)).join

/-- Centering offset: the final `xOffset / 2`. -/
def textCenterX : ℚ := ((textString.length : ℚ) * (17/2)) / 2

/-- The centered voxel list. -/
def textVoxels : List Voxel :=
  textVoxelsRaw.map fun v => { v with x := v.x - textCenterX }

/-- The blue-to-red gradient color of a voxel, keyed to its character's
position. -/
def voxelColor (M : JsMath) (v : Voxel) : Color :=
  let t := (v.charIndex : ℚ) / (v.totalChars : ℚ)
  ⟨t, 1/5 + M.sin (t * M.pi) * (3/10), 1 - t⟩

/-- A jittered point inside a voxel (`randomOffset` 0.3 for distribution,
0.5 for fill). -/
def voxelJitterPoint (r : RStream) (off : ℚ) (v : Voxel) (base : ℕ) : Vec3 :=
  ⟨v.x + (r base - 1/2) * off, v.y + (r (base + 1) - 1/2) * off,
    v.z + (r (base + 2) - 1/2) * off⟩

/-- The distribution loop of `generateText3D`: per voxel,
`min(particlesPerVoxel, numParticles - placed)` point/color pairs. -/
def textDistribute (M : JsMath) (r : RStream) (ppv numParticles : ℕ) :
    List Voxel → ℕ → List Vec3 × List Color
  | [], _ => ([], [])
  | v :: vs, placed =>
      let numToAdd := min ppv (numParticles - placed)
      let pts := (List.range numToAdd).map fun (j : ℕ) =>
        voxelJitterPoint r (3/10) v (3 * (placed + j))
      let cols := (List.range numToAdd).map fun (_ : ℕ) => voxelColor M v
      let rest := textDistribute M r ppv numParticles vs (placed + numToAdd)
      (pts ++ rest.1, cols ++ rest.2)

/-- `generateText3D(numParticles)`: rasterize, distribute
`⌈numParticles / voxels⌉` per voxel capped by the remaining budget, then fill
the remainder from random voxels. -/
def generateText3D (M : JsMath) (r : RStream) (numParticles : ℕ) : GenOut :=
  let voxels := textVoxels
  let ppv := ceilN ((numParticles : ℚ) / (voxels.length : ℚ))
  let dist := textDistribute M r ppv numParticles voxels 0
  let fillCount := numParticles - dist.1.length
  let fillPts := (List.range fillCount).map fun (j : ℕ) =>
    let idx := floorN (r (4 * j) * (voxels.length : ℚ))
    voxelJitterPoint r (1/2) (voxels.getD idx ⟨0, 0, 0, 0, 1⟩) (4 * j + 1)
  let fillCols := (List.range fillCount).map fun (j : ℕ) =>
    let idx := floorN (r (4 * j) * (voxels.length : ℚ))
    voxelColor M (voxels.getD idx ⟨0, 0, 0, 0, 1⟩)
  ⟨dist.1 ++ fillPts, dist.2 ++ fillCols⟩

lemma textDistribute_length (M : JsMath) (r : RStream) (ppv numParticles : ℕ) :
    ∀ (vs : List Voxel) (placed : ℕ),
      (textDistribute M r ppv numParticles vs placed).1.length =
        (textDistribute M r ppv numParticles vs placed).2.length := by
  intro vs
  induction vs with
  | nil => intro placed; rfl
  | cons v vs ih =>
      intro placed
      simp [textDistribute, ih]

lemma generateText3D_length_eq (M : JsMath) (r : RStream) (numParticles : ℕ) :
    (generateText3D M r numParticles).points.length =
      (generateText3D M r numParticles).colors.length := by
  simp [generateText3D, textDistribute_length]

lemma textDistribute_length_le (M : JsMath) (r : RStream) (ppv numParticles : ℕ) :
    ∀ (vs : List Voxel) (placed : ℕ),
      (textDistribute M r ppv numParticles vs placed).1.length ≤ numParticles - placed := by
  intro vs
  induction vs with
  | nil => intro placed; simp [textDistribute]
  | cons v vs ih =>
      intro placed
      have h := ih (placed + min ppv (numParticles - placed))
      simp only [textDistribute, List.length_append, List.length_map, List.length_range]
      omega

lemma generateText3D_points_length (M : JsMath) (r : RStream) (numParticles : ℕ) :
    (generateText3D M r numParticles).points.length = numParticles := by
  have h := textDistribute_length_le M r
    (ceilN ((numParticles : ℚ) / (textVoxels.length : ℚ))) numParticles textVoxels 0
  simp only [Nat.sub_zero] at h
  simp only [generateText3D, List.length_append, List.length_map, List.length_range]
  omega

/-! ## Target Buffer Builder (`useEffect` in `ParticleField.jsx`) -/

/-- The fixed display capacity. -/
def NUM_PARTICLES : ℕ := 30000

/-- JavaScript `q % 1.0` for a nonnegative number: the fractional part. -/
def jsMod1 (q : ℚ) : ℚ := q - ⌊q⌋

/-- The per-particle color gradient the math branch builds alongside the
curve generator's points (two random draws per color). -/
def mathColors (M : JsMath) (r : RStream) (n : ℕ) : List Color :=
  (List.range n).map fun (i : ℕ) =>
    let t := (i : ℚ) / (n : ℚ)
    let hue := jsMod1 (t * (3/10) + 1/2)
    M.setHSL hue (3/5 + r (2 * i) * (1/5)) (2/5 + r (2 * i + 1) * (1/5))

/-- The generator dispatch of the rebuild effect: the new point and color
lists for the given selection.  A mode outside the six known branches leaves
both lists empty. -/
def buildTargetSet (M : JsMath) (r : RStream) (mode shape moleculeType : String)
    (customMolecule : Option Molecule) (numParticles : ℕ) : List Vec3 × List Color :=
  if mode = "welcome" then
    let d := generateText3D M r numParticles
    (d.points, d.colors)
  else if mode = "math" then
    (((Generators M r shape).getD (generateKochCurve M)) numParticles,
      mathColors M r numParticles)
  else if mode = "molecule" then
    let d := generateMolecule M r moleculeType numParticles customMolecule
    (d.points, d.colors)
  else if mode = "galaxy" then
    let d := generateGalaxy M r numParticles
    (d.points, d.colors)
  else if mode = "artifact" then
    let d := generateArtifact M r shape numParticles
    (d.points, d.colors)
  else if mode = "audio" then
    let d := generateArtifact M r "vase" numParticles
    (d.points, d.colors)
  else ([], [])

/-- The six modes the rebuild effect recognises. -/
def isKnownMode (mode : String) : Prop :=
  mode = "welcome" ∨ mode = "math" ∨ mode = "molecule" ∨ mode = "galaxy" ∨
    mode = "artifact" ∨ mode = "audio"

instance (mode : String) : Decidable (isKnownMode mode) := by
  unfold isKnownMode; infer_instance

/-- How many generator calls the rebuild effect performs for a given mode:
each known branch calls its generator exactly once; the fall-through branch
calls none. -/
def generatorInvocations (mode : String) : ℕ :=
  if mode = "welcome" then 1
  else if mode = "math" then 1
  else if mode = "molecule" then 1
  else if mode = "galaxy" then 1
  else if mode = "artifact" then 1
  else if mode = "audio" then 1
  else 0

/-- The buffer-filling loop of the rebuild effect: for `i < cap`, indices
inside the generated length receive the generated point (and color when a
color exists at that index, else white); indices at or past the generated
length are zeroed.  The live buffers are untouched. -/
def fillBuffers (cap : ℕ) (newPoints : List Vec3) (newColors : List Color)
    (st : FieldState) : FieldState :=
  { st with
    targetPositions := fun i =>
      if i < cap then
        (if i < newPoints.length then newPoints.getD i Vec3.zero else Vec3.zero)
      else st.targetPositions i
    targetColors := fun i =>
      if i < cap then
        (if i < newPoints.length then
          (if i < newColors.length then newColors.getD i ⟨1, 1, 1⟩ else ⟨1, 1, 1⟩)
         else ⟨0, 0, 0⟩)
      else st.targetColors i }

/-- One run of the rebuild effect. -/
def rebuild (M : JsMath) (r : RStream) (mode shape moleculeType : String)
    (customMolecule : Option Molecule) (st : FieldState) : FieldState :=
  let d := buildTargetSet M r mode shape moleculeType customMolecule NUM_PARTICLES
  fillBuffers NUM_PARTICLES d.1 d.2 st

/-- A concrete interpretation of the abstract math operations (every
transcendental returns 0), used only to instantiate theorems at concrete
inputs. -/
def M0 : JsMath :=
  { cos := fun _ => 0, sin := fun _ => 0, acos := fun _ => 0, sqrt := fun _ => 0
    cbrt := fun _ => 0, exp := fun _ => 0, cosh := fun _ => 0, log10 := fun _ => 0
    atan2 := fun _ _ => 0, pow := fun _ _ => 0, pi := 0
    normalize3 := fun _ => Vec3.zero, applyAxisAngle := fun v _ _ => v
    rotateFromUpTo := fun _ p => p, setHSL := fun _ _ _ => ⟨0, 0, 0⟩
    offsetHSL := fun c _ _ _ => c }

/-- A concrete random stream (all draws 0), used only to instantiate
theorems at concrete inputs. -/
def r0 : RStream := fun _ => 0

lemma buildTargetSet_unknown (M : JsMath) (r : RStream) (mode shape molType : String)
    (custom : Option Molecule) (n : ℕ) (h : ¬ isKnownMode mode) :
    buildTargetSet M r mode shape molType custom n = ([], []) := by
  simp only [isKnownMode, not_or] at h
  obtain ⟨h1, h2, h3, h4, h5, h6⟩ := h
  simp [buildTargetSet, h1, h2, h3, h4, h5, h6]

/-- Evaluate `floorN` at a rational with known integer bounds. -/
lemma floorN_eq (q : ℚ) (n : ℕ) (h1 : (n : ℚ) ≤ q) (h2 : q < (n : ℚ) + 1) :
    floorN q = n := by
  have h : ⌊q⌋ = (n : ℤ) := by
    rw [Int.floor_eq_iff] <;> push_cast <;> first | exact ⟨h1, h2⟩ | positivity
  rw [floorN, h, Int.toNat_ofNat]

/-- Evaluate `ceilN` at a rational with known integer bounds. -/
lemma ceilN_eq (q : ℚ) (n : ℕ) (h1 : (n : ℚ) - 1 < q) (h2 : q ≤ (n : ℚ)) :
    ceilN q = n := by
  have h : ⌈q⌉ = (n : ℤ) := by
    rw [Int.ceil_eq_iff] <;> push_cast
    · exact ⟨h1, h2⟩
  rw [ceilN, h, Int.toNat_ofNat]

/-- C8: one run of the rebuild effect invokes the matching generator exactly
once (per the dispatch's invocation count), rewrites the target buffers in
full — indices below the generated length one-to-one from the generator's
output, indices at or beyond it zeroed — and leaves the live position and
color buffers untouched. -/
theorem rebuild_full_rewrite_preserves_live (M : JsMath) (r : RStream)
    (mode shape molType : String) (custom : Option Molecule) (st : FieldState) :
    (isKnownMode mode → generatorInvocations mode = 1) ∧
    (∀ i, i < NUM_PARTICLES →
      i < (buildTargetSet M r mode shape molType custom NUM_PARTICLES).1.length →
      (rebuild M r mode shape molType custom st).targetPositions i =
        (buildTargetSet M r mode shape molType custom NUM_PARTICLES).1.getD i Vec3.zero ∧
      (i < (buildTargetSet M r mode shape molType custom NUM_PARTICLES).2.length →
        (rebuild M r mode shape molType custom st).targetColors i =
          (buildTargetSet M r mode shape molType custom NUM_PARTICLES).2.getD i ⟨1, 1, 1⟩)) ∧
    (∀ i, i < NUM_PARTICLES →
      (buildTargetSet M r mode shape molType custom NUM_PARTICLES).1.length ≤ i →
      (rebuild M r mode shape molType custom st).targetPositions i = Vec3.zero ∧
      (rebuild M r mode shape molType custom st).targetColors i = ⟨0, 0, 0⟩) ∧
    (rebuild M r mode shape molType custom st).positions = st.positions ∧
    (rebuild M r mode shape molType custom st).colors = st.colors := by
  refine ⟨?_, ?_, ?_, rfl, rfl⟩
  · intro h
    rcases h with h | h | h | h | h | h <;> subst h <;> rfl
  · intro i hcap hlen
    constructor
    · simp [rebuild, fillBuffers, hcap, hlen]
    · intro hc
      simp [rebuild, fillBuffers, hcap, hlen, hc]
  · intro i hcap hlen
    have hlt : ¬ i < (buildTargetSet M r mode shape molType custom NUM_PARTICLES).1.length :=
      not_lt.mpr hlen
    constructor <;> simp [rebuild, fillBuffers, hcap, hlt]

/-- Witness for C8: a rebuild in molecule mode with an unknown molecule id
(empty generated set) zeroes a slot, leaves the live buffers alone, and
counts one generator invocation. -/
theorem rebuild_full_rewrite_preserves_live_witness :
    (rebuild M0 r0 "molecule" "koch" "XYZ" none demoState).targetPositions 3 = Vec3.zero ∧
    (rebuild M0 r0 "molecule" "koch" "XYZ" none demoState).positions = demoState.positions ∧
    generatorInvocations "molecule" = 1 := by
  have h := rebuild_full_rewrite_preserves_live M0 r0 "molecule" "koch" "XYZ" none demoState
  have hlen : (buildTargetSet M0 r0 "molecule" "koch" "XYZ" none NUM_PARTICLES).1.length
      = 0 := rfl
  refine ⟨(h.2.2.1 3 (by decide) ?_).1, h.2.2.2.1,
    h.1 (Or.inr (Or.inr (Or.inl rfl)))⟩
  omega

/-! ## The H2O point budget (C4) -/

/-- The catalog's water molecule. -/
def H2Omol : Molecule :=
  { name := "Water"
    atoms := [⟨"O", ⟨0, 0, 0⟩⟩, ⟨"H", ⟨76/100, 59/100, 0⟩⟩, ⟨"H", ⟨-76/100, 59/100, 0⟩⟩]
    bonds := [⟨0, 1, 1, "covalent"⟩, ⟨0, 2, 1, "covalent"⟩] }

lemma moleculeResolve_H2O : moleculeResolve "H2O" none = some H2Omol := rfl

lemma radiusOf_O : radiusOf "O" = 3/4 := rfl

lemma radiusOf_H : radiusOf "H" = 1/2 := rfl

lemma H2Omol_atoms : H2Omol.atoms =
    [⟨"O", ⟨0, 0, 0⟩⟩, ⟨"H", ⟨76/100, 59/100, 0⟩⟩, ⟨"H", ⟨-76/100, 59/100, 0⟩⟩] := rfl

lemma H2Omol_bonds : H2Omol.bonds =
    [⟨0, 1, 1, "covalent"⟩, ⟨0, 2, 1, "covalent"⟩] := rfl

lemma totalVolumeOf_H2O : totalVolumeOf H2Omol = 43/64 := by
  simp only [totalVolumeOf, H2Omol_atoms, List.foldl, radiusOf_O, radiusOf_H]
  norm_num

lemma totalAtomPointsOf_30000 : totalAtomPointsOf 30000 = 21000 := by
  rw [totalAtomPointsOf]
  apply floorN_eq <;> norm_num

lemma pointsPerBondOf_30000 : pointsPerBondOf 30000 2 = 4500 := by
  rw [pointsPerBondOf, if_pos (by norm_num)]
  apply floorN_eq <;> norm_num

lemma atomPointCount_H2O_O (pos : Vec3) :
    atomPointCount 30000 H2Omol ⟨"O", pos⟩ = 13186 := by
  simp only [atomPointCount, totalAtomPointsOf_30000, totalVolumeOf_H2O, radiusOf_O]
  apply floorN_eq <;> norm_num

lemma atomPointCount_H2O_H (pos : Vec3) :
    atomPointCount 30000 H2Omol ⟨"H", pos⟩ = 3906 := by
  simp only [atomPointCount, totalAtomPointsOf_30000, totalVolumeOf_H2O, radiusOf_H]
  apply floorN_eq <;> norm_num

lemma generateMolecule_H2O_30000_points (M : JsMath) (r : RStream) :
    (generateMolecule M r "H2O" 30000 none).points.length = 29998 := by
  rw [generateMolecule_points_length M r "H2O" 30000 none H2Omol moleculeResolve_H2O]
  simp only [H2Omol_atoms, H2Omol_bonds, List.map_cons, List.map_nil, List.sum_cons,
    List.sum_nil, List.length_cons, List.length_nil, atomPointCount_H2O_O,
    atomPointCount_H2O_H, bondOrderOf, bondOffsets]
  norm_num [pointsPerBondOf_30000]

/-- C4 (amended): `generateMolecule` splits the budget 70% / 30% between
atoms and bonds, allocating each atom `⌊totalAtomPoints * r³ / Σ r³⌋` points
and, per bond, `offsets * ⌊⌊0.3 N / bondCount⌋ / order⌋` points; for H2O with
`N = 30000` this gives Oxygen 13186 and each Hydrogen 3906 points (ratio
within 1/100 of `(0.75/0.5)³ = 3.375`), 20998 atom points and 9000 bond
points — 29998 in total, so the generator underproduces by exactly 2 points
relative to 30000 and two slots are zero-padded. -/
theorem molecule_H2O_budget (M : JsMath) (r : RStream) :
    (∀ (type : String) (N : ℕ) (custom : Option Molecule) (mol : Molecule),
      moleculeResolve type custom = some mol →
      (generateMolecule M r type N custom).points.length =
        (mol.atoms.map fun a => atomPointCount N mol a).sum +
        (mol.bonds.map fun b =>
          (bondOffsets (bondOrderOf b)
              (bondPerp M (M.normalize3
                ((mol.atoms.getD b.b ⟨"", Vec3.zero⟩).pos -
                  (mol.atoms.getD b.a ⟨"", Vec3.zero⟩).pos)))).length *
            (pointsPerBondOf N mol.bonds.length / bondOrderOf b)).sum) ∧
    totalAtomPointsOf 30000 = 21000 ∧
    pointsPerBondOf 30000 2 = 4500 ∧
    (∀ pos, atomPointCount 30000 H2Omol ⟨"O", pos⟩ = 13186) ∧
    (∀ pos, atomPointCount 30000 H2Omol ⟨"H", pos⟩ = 3906) ∧
    |(13186 : ℚ) / 3906 - ((3/4) / (1/2))^3| < 1/100 ∧
    (generateMolecule M r "H2O" 30000 none).points.length = 29998 ∧
    29998 < 30000 := by
  refine ⟨fun type N custom mol h =>
      generateMolecule_points_length M r type N custom mol h,
    totalAtomPointsOf_30000, pointsPerBondOf_30000, atomPointCount_H2O_O,
    atomPointCount_H2O_H, by rw [abs_sub_lt_iff]; constructor <;> norm_num,
    generateMolecule_H2O_30000_points M r, by norm_num⟩

/-- Witness for C4 (amended): the structural length formula applied to the
resolved H2O molecule at the concrete budget. -/
theorem molecule_H2O_budget_witness :
    (generateMolecule M0 r0 "H2O" 30000 none).points.length =
      (H2Omol.atoms.map fun a => atomPointCount 30000 H2Omol a).sum +
      (H2Omol.bonds.map fun b =>
        (bondOffsets (bondOrderOf b)
            (bondPerp M0 (M0.normalize3
              ((H2Omol.atoms.getD b.b ⟨"", Vec3.zero⟩).pos -
                (H2Omol.atoms.getD b.a ⟨"", Vec3.zero⟩).pos)))).length *
          (pointsPerBondOf 30000 H2Omol.bonds.length / bondOrderOf b)).sum :=
  (molecule_H2O_budget M0 r0).1 "H2O" 30000 none H2Omol moleculeResolve_H2O

/-- C4 fails as stated: the H2O generator at `N = 30000` produces 29998
points, strictly fewer than 30000 — floor rounding makes it underproduce
(by 2), contradicting "which by construction it does not". -/
theorem molecule_H2O_underproduces_counterexample :
    (generateMolecule M0 r0 "H2O" 30000 none).points.length = 29998 ∧
    (generateMolecule M0 r0 "H2O" 30000 none).points.length < 30000 := by
  have h := generateMolecule_H2O_30000_points M0 r0
  exact ⟨h, by omega⟩

/-! ## Unknown-selector behaviour (C3) -/

lemma Generators_koch (M : JsMath) (r : RStream) :
    Generators M r "koch" = some (generateKochCurve M) := rfl

lemma buildTargetSet_math (M : JsMath) (r : RStream) (shape molType : String)
    (custom : Option Molecule) (n : ℕ) :
    buildTargetSet M r "math" shape molType custom n =
      (((Generators M r shape).getD (generateKochCurve M)) n, mathColors M r n) := rfl

lemma buildTargetSet_molecule (M : JsMath) (r : RStream) (shape molType : String)
    (custom : Option Molecule) (n : ℕ) :
    buildTargetSet M r "molecule" shape molType custom n =
      ((generateMolecule M r molType n custom).points,
        (generateMolecule M r molType n custom).colors) := rfl

/-- C3 (amended): an unrecognized math shape falls back to the Koch
generator, an unrecognized artifact type to the pyramid, and an unresolvable
molecule id yields the empty PointSet; an unrecognized *mode*, however, does
not invoke any default generator — the rebuild produces the empty pair and
the builder therefore leaves every slot at the zero-padding default (as it
also does for the empty output of an unknown molecule id). -/
theorem unknown_selector_defaults (M : JsMath) (r : RStream) (N : ℕ) :
    (∀ shape, Generators M r shape = none →
      buildTargetSet M r "math" shape "H2O" none N =
        buildTargetSet M r "math" "koch" "H2O" none N) ∧
    (∀ type, type ≠ "pyramid" → type ≠ "column" → type ≠ "vase" →
      generateArtifact M r type N = generatePyramid M r N) ∧
    (∀ type custom, moleculeResolve type custom = none →
      generateMolecule M r type N custom = ⟨[], []⟩) ∧
    (∀ mode shape molType custom, ¬ isKnownMode mode →
      buildTargetSet M r mode shape molType custom N = ([], [])) ∧
    (∀ st mode shape molType custom i, ¬ isKnownMode mode → i < NUM_PARTICLES →
      (rebuild M r mode shape molType custom st).targetPositions i = Vec3.zero ∧
      (rebuild M r mode shape molType custom st).targetColors i = ⟨0, 0, 0⟩) ∧
    (∀ st molType i, MOLECULES molType = none → i < NUM_PARTICLES →
      (rebuild M r "molecule" "koch" molType none st).targetPositions i = Vec3.zero ∧
      (rebuild M r "molecule" "koch" molType none st).targetColors i = ⟨0, 0, 0⟩) := by
  refine ⟨?_, ?_, ?_, ?_, ?_, ?_⟩
  · intro shape h
    rw [buildTargetSet_math, buildTargetSet_math, h, Generators_koch]
    rfl
  · intro type h1 h2 h3
    simp [generateArtifact, h1, h2, h3]
  · intro type custom h
    simp [generateMolecule, h]
  · intro mode shape molType custom h
    exact buildTargetSet_unknown M r mode shape molType custom N h
  · intro st mode shape molType custom i hmode hi
    have hempty := buildTargetSet_unknown M r mode shape molType custom NUM_PARTICLES hmode
    constructor <;> simp [rebuild, fillBuffers, hempty, hi]
  · intro st molType i hmol hi
    have hres : moleculeResolve molType none = none := by
      simp [moleculeResolve, hmol]
    have hempty : buildTargetSet M r "molecule" "koch" molType none NUM_PARTICLES
        = ([], []) := by
      rw [buildTargetSet_molecule]
      simp [generateMolecule, hres]
    constructor <;> simp [rebuild, fillBuffers, hempty, hi]

/-- Witness for C3 (amended): concrete unknown selectors. -/
theorem unknown_selector_defaults_witness :
    buildTargetSet M0 r0 "math" "hexagon" "H2O" none 7 =
      buildTargetSet M0 r0 "math" "koch" "H2O" none 7 ∧
    generateArtifact M0 r0 "obelisk" 7 = generatePyramid M0 r0 7 ∧
    generateMolecule M0 r0 "Glucose" 7 none = ⟨[], []⟩ ∧
    buildTargetSet M0 r0 "nebula" "koch" "H2O" none 7 = ([], []) ∧
    (rebuild M0 r0 "nebula" "koch" "H2O" none demoState).targetPositions 3 = Vec3.zero := by
  have h := unknown_selector_defaults M0 r0 7
  refine ⟨h.1 "hexagon" rfl,
    h.2.1 "obelisk" (by decide) (by decide) (by decide),
    h.2.2.1 "Glucose" none rfl,
    h.2.2.2.1 "nebula" "koch" "H2O" none (by decide),
    ((unknown_selector_defaults M0 r0 NUM_PARTICLES).2.2.2.2.1 demoState "nebula" "koch"
      "H2O" none 3 (by decide) (by decide)).1⟩

/-! Point-count facts at budget 5, used to exhibit that every known mode
produces a non-empty point set there. -/

lemma totalAtomPointsOf_5 : totalAtomPointsOf 5 = 3 := by
  rw [totalAtomPointsOf]
  apply floorN_eq <;> norm_num

lemma pointsPerBondOf_5 : pointsPerBondOf 5 2 = 0 := by
  rw [pointsPerBondOf, if_pos (by norm_num)]
  apply floorN_eq <;> norm_num

lemma atomPointCount_5_H2O_O (pos : Vec3) :
    atomPointCount 5 H2Omol ⟨"O", pos⟩ = 1 := by
  simp only [atomPointCount, totalAtomPointsOf_5, totalVolumeOf_H2O, radiusOf_O]
  apply floorN_eq <;> norm_num

lemma atomPointCount_5_H2O_H (pos : Vec3) :
    atomPointCount 5 H2Omol ⟨"H", pos⟩ = 0 := by
  simp only [atomPointCount, totalAtomPointsOf_5, totalVolumeOf_H2O, radiusOf_H]
  apply floorN_eq <;> norm_num

lemma generateMolecule_H2O_5_points (M : JsMath) (r : RStream) :
    (generateMolecule M r "H2O" 5 none).points.length = 1 := by
  rw [generateMolecule_points_length M r "H2O" 5 none H2Omol moleculeResolve_H2O]
  simp only [H2Omol_atoms, H2Omol_bonds, List.map_cons, List.map_nil, List.sum_cons,
    List.sum_nil, List.length_cons, List.length_nil, atomPointCount_5_H2O_O,
    atomPointCount_5_H2O_H, bondOrderOf, bondOffsets]
  norm_num [pointsPerBondOf_5]

/-- C3 fails as stated on the mode selector: an unrecognized mode does NOT
fall back to a designated default generator — it produces the empty pair,
while every one of the six known modes produces a non-empty point list at the
same budget (5), so the unknown-mode output matches no generator's output. -/
theorem unknown_mode_no_default_counterexample :
    buildTargetSet M0 r0 "nebula" "koch" "H2O" none 5 = ([], []) ∧
    (buildTargetSet M0 r0 "welcome" "koch" "H2O" none 5).1 ≠ [] ∧
    (buildTargetSet M0 r0 "math" "koch" "H2O" none 5).1 ≠ [] ∧
    (buildTargetSet M0 r0 "molecule" "koch" "H2O" none 5).1 ≠ [] ∧
    (buildTargetSet M0 r0 "galaxy" "koch" "H2O" none 5).1 ≠ [] ∧
    (buildTargetSet M0 r0 "artifact" "koch" "H2O" none 5).1 ≠ [] ∧
    (buildTargetSet M0 r0 "audio" "koch" "H2O" none 5).1 ≠ [] := by
  refine ⟨rfl, ?_, ?_, ?_, ?_, ?_, ?_⟩
  · have h : (buildTargetSet M0 r0 "welcome" "koch" "H2O" none 5).1.length = 5 :=
      generateText3D_points_length M0 r0 5
    intro hnil; rw [hnil] at h; simp at h
  · have h : (buildTargetSet M0 r0 "math" "koch" "H2O" none 5).1.length = 5 :=
      generateKochCurve_length M0 5
    intro hnil; rw [hnil] at h; simp at h
  · have h : (buildTargetSet M0 r0 "molecule" "koch" "H2O" none 5).1.length = 1 :=
      generateMolecule_H2O_5_points M0 r0
    intro hnil; rw [hnil] at h; simp at h
  · have h : (buildTargetSet M0 r0 "galaxy" "koch" "H2O" none 5).1.length =
        starData.length + (5 - starData.length) := (generateGalaxy_length M0 r0 5).1
    intro hnil; rw [hnil] at h; simp [starData] at h
  · have h : (buildTargetSet M0 r0 "artifact" "koch" "H2O" none 5).1.length = 5 :=
      (generateArtifact_length M0 r0 "koch" 5).1
    intro hnil; rw [hnil] at h; simp at h
  · have h : (buildTargetSet M0 r0 "audio" "koch" "H2O" none 5).1.length = 5 :=
      (generateArtifact_length M0 r0 "vase" 5).1
    intro hnil; rw [hnil] at h; simp at h

/-! ## Generator length accounting (C9) -/

lemma mathColors_length (M : JsMath) (r : RStream) (n : ℕ) :
    (mathColors M r n).length = n := by
  simp [mathColors]

lemma generateCardioid_length (M : JsMath) (r : RStream) (n : ℕ) :
    (generateCardioid M r n).length = n := by
  simp [generateCardioid, normalizePoints_length]

lemma generateButterfly_length (M : JsMath) (n : ℕ) :
    (generateButterfly M n).length = n := by
  simp [generateButterfly, normalizePoints_length]

lemma generateSpiral_length (M : JsMath) (n : ℕ) :
    (generateSpiral M n).length = n := by
  simp [generateSpiral, normalizePoints_length]

lemma generateCatenary_length (M : JsMath) (r : RStream) (n : ℕ) :
    (generateCatenary M r n).length = n := by
  simp [generateCatenary, normalizePoints_length]

lemma generateLemniscate_length (M : JsMath) (n : ℕ) :
    (generateLemniscate M n).length = n := by
  simp [generateLemniscate, normalizePoints_length]

lemma generateRose_length (M : JsMath) (n : ℕ) :
    (generateRose M n).length = n := by
  simp [generateRose, normalizePoints_length]

lemma generateKleinBottle_length (M : JsMath) (n : ℕ) :
    (generateKleinBottle M n).length = n := by
  simp [generateKleinBottle, normalizePoints_length]

lemma generateLorenzAttractor_length (n : ℕ) :
    (generateLorenzAttractor n).length = n := by
  simp [generateLorenzAttractor, normalizePoints_length, lorenzOrbit_length]

/-- C9 (amended): every generator that returns a color sequence (molecule,
galaxy, artifacts, voxel text) returns position and color sequences of equal
length; the math-mode builder pairs a curve generator's positions with
exactly `N` colors, and the position count also equals `N` for every curve
and chaotic generator (koch, cardioid, butterfly, spiral, catenary,
lemniscate, rose, klein, lorenz) — but not, in general, for the escape-time
and orbital samplers. -/
theorem generator_lengths_align (M : JsMath) (r : RStream) (N : ℕ) :
    (∀ type custom, (generateMolecule M r type N custom).points.length =
      (generateMolecule M r type N custom).colors.length) ∧
    ((generateGalaxy M r N).points.length = (generateGalaxy M r N).colors.length) ∧
    (∀ type, (generateArtifact M r type N).points.length = N ∧
      (generateArtifact M r type N).colors.length = N) ∧
    ((generateText3D M r N).points.length = (generateText3D M r N).colors.length) ∧
    (∀ shape, shape ∈ (["koch", "cardioid", "butterfly", "spiral", "catenary",
        "lemniscate", "rose", "klein", "lorenz"] : List String) →
      (buildTargetSet M r "math" shape "H2O" none N).1.length = N ∧
      (buildTargetSet M r "math" shape "H2O" none N).2.length = N) := by
  refine ⟨fun type custom => generateMolecule_length_eq M r type N custom,
    ?_, fun type => generateArtifact_length M r type N,
    generateText3D_length_eq M r N, ?_⟩
  · rw [(generateGalaxy_length M r N).1, (generateGalaxy_length M r N).2]
  · intro shape hs
    have hcol : ∀ s : String, (buildTargetSet M r "math" s "H2O" none N).2.length = N := by
      intro s
      rw [buildTargetSet_math]
      exact mathColors_length M r N
    simp only [List.mem_cons, List.not_mem_nil, or_false] at hs
    rcases hs with rfl | rfl | rfl | rfl | rfl | rfl | rfl | rfl | rfl <;>
      refine ⟨?_, hcol _⟩ <;>
      rw [buildTargetSet_math]
    · rw [show Generators M r "koch" = some (generateKochCurve M) from rfl,
        Option.getD_some]
      exact generateKochCurve_length M N
    · rw [show Generators M r "cardioid" = some (generateCardioid M r) from rfl,
        Option.getD_some]
      exact generateCardioid_length M r N
    · rw [show Generators M r "butterfly" = some (generateButterfly M) from rfl,
        Option.getD_some]
      exact generateButterfly_length M N
    · rw [show Generators M r "spiral" = some (generateSpiral M) from rfl,
        Option.getD_some]
      exact generateSpiral_length M N
    · rw [show Generators M r "catenary" = some (generateCatenary M r) from rfl,
        Option.getD_some]
      exact generateCatenary_length M r N
    · rw [show Generators M r "lemniscate" = some (generateLemniscate M) from rfl,
        Option.getD_some]
      exact generateLemniscate_length M N
    · rw [show Generators M r "rose" = some (generateRose M) from rfl,
        Option.getD_some]
      exact generateRose_length M N
    · rw [show Generators M r "klein" = some (generateKleinBottle M) from rfl,
        Option.getD_some]
      exact generateKleinBottle_length M N
    · rw [show Generators M r "lorenz" = some generateLorenzAttractor from rfl,
        Option.getD_some]
      exact generateLorenzAttractor_length N

/-- Witness for C9 (amended): concrete instance at the cardioid shape with
`N = 6`. -/
theorem generator_lengths_align_witness :
    (buildTargetSet M0 r0 "math" "cardioid" "H2O" none 6).1.length = 6 ∧
    (buildTargetSet M0 r0 "math" "cardioid" "H2O" none 6).2.length = 6 :=
  (generator_lengths_align M0 r0 6).2.2.2.2 "cardioid" (by simp)

/-- C9 fails as stated: the electron-orbitals generator at `N = 1` emits
`⌈0.2⌉ + ⌈0.3⌉ + ⌈0.25⌉ + ⌈0.25⌉ = 4` points, while the math branch builds
exactly 1 color — the position and color sequences of that generator's
PointSet have different lengths. -/
theorem orbitals_length_mismatch_counterexample :
    (buildTargetSet M0 r0 "math" "orbitals" "H2O" none 1).1.length = 4 ∧
    (buildTargetSet M0 r0 "math" "orbitals" "H2O" none 1).2.length = 1 ∧
    (buildTargetSet M0 r0 "math" "orbitals" "H2O" none 1).1.length ≠
      (buildTargetSet M0 r0 "math" "orbitals" "H2O" none 1).2.length := by
  have c1 : ceilN ((5 : ℚ)⁻¹) = 1 := ceilN_eq _ 1 (by norm_num) (by norm_num)
  have c2 : ceilN ((3 : ℚ) / 10) = 1 := ceilN_eq _ 1 (by norm_num) (by norm_num)
  have c3 : ceilN ((4 : ℚ)⁻¹) = 1 := ceilN_eq _ 1 (by norm_num) (by norm_num)
  have h1 : (buildTargetSet M0 r0 "math" "orbitals" "H2O" none 1).1 =
      generateElectronOrbitals M0 r0 1 := rfl
  have h2 : (buildTargetSet M0 r0 "math" "orbitals" "H2O" none 1).2 =
      mathColors M0 r0 1 := rfl
  have hlen : (generateElectronOrbitals M0 r0 1).length = 4 := by
    simp [generateElectronOrbitals, normalizePoints_length, orbitalsList,
      List.length_join, Function.comp_def, c1, c2, c3]
  refine ⟨by rw [h1, hlen], by rw [h2, mathColors_length], ?_⟩
  rw [h1, h2, hlen, mathColors_length]
  omega

end Particles
